import Mathlib

/-!
Verification development for the decentralized peer-evaluation system.

The definitions below are a shallow embedding of the Python sources:
* `src/peer_evaluation/stage5_vancouver_processor.py` (class `EnhancedGraph`),
* `src/core/vancouver.py` (class `Graph`, final aggregation step),
* `src/peer_evaluation/stage2_db_manager.py` (class `DatabaseManager`),
* `src/peer_evaluation/stage3_web_server.py` (route `/api/submit`),
* `src/peer_evaluation/assignment_engine.py` (perfect-balance assignment),
* CPython's `random` module (MT19937), which `assignment_engine.py` uses
  through `random.seed` / `random.shuffle`.

Floating point arithmetic is modelled by exact arithmetic: `ℚ` everywhere the
values stay rational, `ℝ` where a square root is taken.
-/

namespace PeerEval

/-! ## Vancouver processor (`stage5_vancouver_processor.py`, class `EnhancedGraph`)

A graph is the list of reviews added through `add_review(username, item_id,
grade)`.  Users and items are identified by strings; `user.grade` is a dict,
so a repeated `(user, item)` pair keeps the last grade written. -/

structure Review where
  reviewer : String
  item : String
  grade : ℚ
  deriving DecidableEq

/-- The distinct reviewer names of the graph (`self.users`). -/
def userNames (rs : List Review) : List String :=
  (rs.map (·.reviewer)).dedup

/-- The distinct item ids of the graph (`self.items`). -/
def itemNames (rs : List Review) : List String :=
  (rs.map (·.item)).dedup

/-- `user.grade[item]`: the grade `u` gave to `it`, the last write winning. -/
def gradeOf (rs : List Review) (u it : String) : Option ℚ :=
  ((rs.filter (fun r => r.reviewer = u ∧ r.item = it)).map (·.grade)).getLast?

/-- `user.items`: the distinct items reviewed by `u`. -/
def userItems (rs : List Review) (u : String) : List String :=
  ((rs.filter (·.reviewer = u)).map (·.item)).dedup

/-- `item.users`: the distinct reviewers of `it`. -/
def itemUsers (rs : List Review) (it : String) : List String :=
  ((rs.filter (·.item = it)).map (·.reviewer)).dedup

/-- `np.mean` of a list of rationals (0 for the empty list, as a convention;
the code never takes a mean of an empty collection on the paths we model). -/
def npMean (xs : List ℚ) : ℚ := xs.sum / xs.length

/-- `np.var`: the population variance, mean of squared deviations. -/
def npVar (xs : List ℚ) : ℚ := npMean (xs.map (fun x => (x - npMean xs) ^ 2))

/-- The `(grade, weight)` pairs collected by `evaluate_items` for one item:
for each user of the item with the item in `user.grade`, the given grade and
the user's current reputation as the weight (`getattr(user, 'reputation',
1.0)` — the reputation assignment `rep` is a parameter here). -/
def itemScores (rs : List Review) (rep : String → ℚ) (it : String) :
    List (ℚ × ℚ) :=
  (itemUsers rs it).filterMap fun u => (gradeOf rs u it).map (fun g => (g, rep u))

/-- `evaluate_items`: the consensus grade written into `item.grade`.
Weighted average of the grades with reputation weights; unweighted mean when
the total weight is not positive; `0.0` when there are no grades.  Returns
`none` when the item has no users (the code leaves `item.grade = None`). -/
def itemGrade (rs : List Review) (rep : String → ℚ) (it : String) : Option ℚ :=
  if itemUsers rs it = [] then none
  else
    let sc := itemScores rs rep it
    if sc = [] then some 0
    else
      let tw := (sc.map (·.2)).sum
      if 0 < tw then some ((sc.map (fun p => p.1 * p.2)).sum / tw)
      else some (npMean (sc.map (·.1)))

/-- `evaluate_items`: the variance written into `item.variance`
(`np.var(grades)` when more than one grade, else `0.0`). -/
def itemVariance (rs : List Review) (rep : String → ℚ) (it : String) : ℚ :=
  let grades := (itemScores rs rep it).map (·.1)
  if grades = [] then 0
  else if 1 < grades.length then npVar grades else 0

/-- `evaluate_users`: the absolute differences `|user score − item.grade|`
over the items of `u` whose consensus has been computed. -/
def userDiffs (rs : List Review) (ig : String → Option ℚ) (u : String) :
    List ℚ :=
  (userItems rs u).filterMap fun it =>
    match ig it, gradeOf rs u it with
    | some c, some g => some |g - c|
    | _, _ => none

/-- A reviewer variance: a finite rational or `float('inf')`. -/
inductive VarV where
  | fin (q : ℚ)
  | inf
  deriving DecidableEq

/-- `evaluate_users`: `np.mean(differences) ** 2` when there are differences,
`0.0` when the user has grades but no usable difference, `float('inf')` when
the user gave no grades at all. -/
def userVariance (rs : List Review) (ig : String → Option ℚ) (u : String) :
    VarV :=
  if userItems rs u = [] then .inf
  else
    let ds := userDiffs rs ig u
    if ds = [] then .fin 0 else .fin (npMean ds ^ 2)

/-- `calculate_reputation_scores`:
`max(0, R_max - (R_max / v_G) * sqrt(max(0, variance)))` for a finite
variance, `0.0` for a missing or infinite variance. -/
noncomputable def reputation (Rmax vG : ℝ) : VarV → ℝ
  | .fin q => max 0 (Rmax - Rmax / vG * Real.sqrt (max 0 (q : ℝ)))
  | .inf => 0

/-- `calculate_incentive_weights`: `min(m_j, N) / N * R_j` where `m_j` is the
number of items the user reviewed. -/
noncomputable def incentiveWeight (N : ℕ) (m : ℕ) (rep : ℝ) : ℝ :=
  (min m N : ℝ) / (N : ℝ) * rep

/-- One row of the `final_grades` dict built by `calculate_final_grades`. -/
structure FinalEntry (K : Type) where
  name : String
  consensus_score : K
  incentive_weight : K
  final_grade : K
  weighted_grade : K
  protection_used : Bool
  deriving DecidableEq

variable {K : Type} [LinearOrderedField K] [DecidableEq K]
  [DecidableRel ((· < ·) : K → K → Prop)]

/-- The entry `calculate_final_grades` computes for one user, given the
consensus score `qhat` of the user's own paper and the user's incentive
weight `theta`:
`weighted_grade = (1 - alpha) * q̂ + alpha * θ * 100`,
`final_grade = max(q̂, weighted_grade)`,
`protection_used = (final_grade == q̂ and weighted_grade < q̂)`. -/
def finalEntry (alpha : K) (name : String) (qhat theta : K) : FinalEntry K :=
  let weighted := (1 - alpha) * qhat + alpha * theta * 100
  let fg := max qhat weighted
  ⟨name, qhat, theta, fg, weighted, decide (fg = qhat) && decide (weighted < qhat)⟩

/-- `calculate_final_grades`: one entry per user whose own item exists and has
a computed consensus (`str(item.id) == str(user.name)` and
`item.grade is not None`); `users` lists each user with their incentive
weight, `ig` is the computed item-consensus assignment. -/
def calculate_final_grades (alpha : K) (users : List (String × K))
    (ig : String → Option K) : List (FinalEntry K) :=
  users.filterMap fun p => (ig p.1).map fun q => finalEntry alpha p.1 q p.2

/-! ## Core Vancouver (`core/vancouver.py`), final user aggregation

`_aggregate_user_messages` runs after `_aggregate_item_messages` has set
`item.grade`.  With `DEBIAS = False` the bias is `0.0`, and with
`AGGREGATE_BY_MEDIAN = False` the aggregator is `np.average(values,
weights) = Σ vᵢwᵢ / Σ wᵢ`. -/

/-- One message in `u.msgs` as `_aggregate_user_messages` reads it: the grade
the user gave to the message's item, the item's aggregated consensus grade,
and the message variance. -/
structure UserMsg where
  given : ℚ
  itemConsensus : ℚ
  msgVariance : ℚ
  deriving DecidableEq

/-- `_aggregate_user_messages` for one user: `None` when the user has no
messages, otherwise `np.average` of the squared differences
`(given − item.grade)²` with weights `1 / (basic_precision + m.variance)`. -/
def aggregate_user_messages (bp : ℚ) (msgs : List UserMsg) : Option ℚ :=
  if msgs = [] then none
  else
    let ws := msgs.map fun m => 1 / (bp + m.msgVariance)
    let vs := msgs.map fun m => (m.given - m.itemConsensus) ^ 2
    some ((List.zipWith (· * ·) vs ws).sum / ws.sum)

/-- Modelled from the spec (claim C2's formula, for comparison with the code):
"a weighted mean of the squared differences (given_score − item.consensus)²
over the items u reviewed, using the same inverse-variance weighting rule as
the item aggregation (weights 1/(basic_precision + variance) normalized to
sum to 1)", with the item's variance as the variance in the weight. -/
def claimedUserVariance (rs : List Review) (ig : String → Option ℚ)
    (iv : String → ℚ) (bp : ℚ) (u : String) : ℚ :=
  let pairs := (userItems rs u).filterMap fun it =>
    match ig it, gradeOf rs u it with
    | some c, some g => some ((g - c) ^ 2, iv it)
    | _, _ => none
  let ws := pairs.map fun p => 1 / (bp + p.2)
  (List.zipWith (· * ·) (pairs.map (·.1)) ws).sum / ws.sum

/-! ## Store (`stage2_db_manager.py`, class `DatabaseManager`)

Each public method opens its own connection through `get_connection`, which
commits on normal exit and rolls back on an exception: every single call is
its own transaction.  Rows are modelled as records, timestamps as integers,
the tables as lists in insertion order. -/

/-- A row of the `tokens` table. -/
structure TokenRow where
  token : String
  evaluator_id : String
  target_id : String
  questions : List String
  expires_at : ℤ
  status : String
  is_used : Bool
  used_at : Option ℤ
  ip_address : Option String
  user_agent : Option String
  deriving DecidableEq

/-- A row of the `submissions` table. -/
structure SubmissionRow where
  id : ℕ
  token : String
  evaluator_id : String
  target_id : String
  question_id : String
  score : ℤ
  comment : String
  ip_address : Option String
  user_agent : Option String
  deriving DecidableEq

/-- A row of the `submission_logs` table. -/
structure LogRow where
  token : Option String
  action : String
  details : String
  deriving DecidableEq

/-- The database: the three tables and the next AUTOINCREMENT id for
`submissions`. -/
structure DBState where
  tokens : List TokenRow
  submissions : List SubmissionRow
  logs : List LogRow
  nextId : ℕ
  deriving DecidableEq

/-- `get_token_info`: point lookup by primary key. -/
def get_token_info (db : DBState) (t : String) : Option TokenRow :=
  db.tokens.find? (fun r => r.token = t)

/-- `validate_token`: `(is_valid, token_info, error message)`, checking in
order existence, `is_used`, `status = 'pending'`, `now > expires_at`.
A pure read. -/
def validate_token (db : DBState) (now : ℤ) (t : String) :
    Bool × Option TokenRow × String :=
  match get_token_info db t with
  | none => (false, none, "Token does not exist")
  | some info =>
    if info.is_used then (false, some info, "Token already used")
    else if info.status ≠ "pending" then (false, some info, "Token status abnormal")
    else if info.expires_at < now then (false, some info, "Token expired")
    else (true, some info, "")

/-- `mark_token_used`: `UPDATE tokens SET is_used=1, status='submitted',
used_at=now, ip_address=?, user_agent=? WHERE token=?` and report
`cursor.rowcount > 0`.  The update is unconditional on the matched rows. -/
def mark_token_used (db : DBState) (t : String) (now : ℤ)
    (ip ua : Option String) : Bool × DBState :=
  (db.tokens.any (fun r => r.token = t),
   { db with
      tokens := db.tokens.map fun r =>
        if r.token = t then
          { r with is_used := true, status := "submitted", used_at := some now,
                   ip_address := ip, user_agent := ua }
        else r })

/-- `save_token`: `INSERT INTO tokens`; an `IntegrityError` (primary-key
conflict on `token`) makes it return `False` and leave the table unchanged. -/
def save_token (db : DBState) (td : TokenRow) : Bool × DBState :=
  if db.tokens.any (fun r => r.token = td.token) then (false, db)
  else (true, { db with tokens := db.tokens ++ [td] })

/-- `save_tokens_batch`: saves each token with its own `save_token` call (its
own transaction), counting successes and failures. -/
def save_tokens_batch (db : DBState) (ts : List TokenRow) :
    (ℕ × ℕ) × DBState :=
  match ts with
  | [] => ((0, 0), db)
  | td :: rest =>
    let r := save_token db td
    let r2 := save_tokens_batch r.2 rest
    (if r.1 then (r2.1.1 + 1, r2.1.2) else (r2.1.1, r2.1.2 + 1), r2.2)

/-- `save_submission`: appends a row and returns `cursor.lastrowid`; the
caller-visible failure mode is an environmental `sqlite3` exception, which
the method catches and turns into `None` with no row inserted.  Whether the
call raises is modelled by the `ok` flag supplied by the caller's
environment. -/
def save_submission (db : DBState) (ok : Bool) (t evaluator target qid : String)
    (score : ℤ) (comment : String) (ip ua : Option String) :
    Option ℕ × DBState :=
  if ok then
    (some db.nextId,
     { db with
        submissions := db.submissions ++
          [⟨db.nextId, t, evaluator, target, qid, score, comment, ip, ua⟩],
        nextId := db.nextId + 1 })
  else (none, db)

/-- `log_action`: appends a log row (best effort). -/
def log_action (db : DBState) (t : Option String) (action details : String) :
    DBState :=
  { db with logs := db.logs ++ [⟨t, action, details⟩] }

/-! ## Web server (`stage3_web_server.py`, route `POST /api/submit`)

The request body is `{token, submissions: [{question_id, score, comment}]}`.
A client may put extra fields (such as `evaluator_id` / `target_id`) in a
submission object; the handler never reads them, so they are carried in the
model to state that fact. -/

/-- One element of the `submissions` array of the request body. -/
structure BodySub where
  question_id : String
  score : ℤ
  comment : String
  evaluator_id : Option String
  target_id : Option String
  deriving DecidableEq

/-- A parsed JSON body (fields may be absent). -/
structure SubmitRequest where
  token : Option String
  submissions : Option (List BodySub)
  deriving DecidableEq

/-- The handler's observable outcome: HTTP status, the `submission_ids` of
the JSON response (empty on error responses), and the database state after
the request. -/
structure SubmitResult where
  status : ℕ
  submission_ids : List (Option ℕ)
  db : DBState
  deriving DecidableEq

/-- The insertion loop of `submit_evaluation`: one `save_submission` per body
element (each its own transaction), appending the returned id — `None` on a
failed insert — and continuing regardless. -/
def submitLoop (db : DBState) (insertOk : ℕ → Bool) (idx : ℕ)
    (t evaluator target : String) (ip ua : Option String) :
    List BodySub → List (Option ℕ) × DBState
  | [] => ([], db)
  | sub :: rest =>
    let r := save_submission db (insertOk idx) t evaluator target
      sub.question_id sub.score sub.comment ip ua
    let r2 := submitLoop r.2 insertOk (idx + 1) t evaluator target ip ua rest
    (r.1 :: r2.1, r2.2)

/-- `submit_evaluation` (`POST /api/submit`): parse body; 400 when the body,
the token or the submissions list is missing or falsy; 403 when
`validate_token` rejects; 400 when the token is already used; otherwise save
every submission with the evaluator and target stored in the token row, mark
the token used, log, and answer 200 with the collected ids. -/
def submit_evaluation (db : DBState) (now : ℤ) (ip ua : Option String)
    (req : Option SubmitRequest) (insertOk : ℕ → Bool) : SubmitResult :=
  match req with
  | none => ⟨400, [], db⟩
  | some body =>
    match body.token, body.submissions with
    | none, _ => ⟨400, [], db⟩
    | some _, none => ⟨400, [], db⟩
    | some t, some subs =>
      if t = "" ∨ subs = [] then ⟨400, [], db⟩
      else
        let v := validate_token db now t
        match v.2.1 with
        | none => ⟨403, [], db⟩
        | some info =>
          if ¬ v.1 then ⟨403, [], db⟩
          else if info.is_used then ⟨400, [], db⟩
          else
            let r := submitLoop db insertOk 0 t info.evaluator_id
              info.target_id ip ua subs
            let r2 := mark_token_used r.2 t now ip ua
            let r3 := log_action r2.2 (some t) "submit" "submitted"
            ⟨200, r.1, r3⟩

/-- The submission rows the handler persists for a body accepted with token
data `(t, e, g)` when no insert fails: one row per body element, ids counting
up from `startId`, with the client's `question_id`, `score` and `comment`
stored verbatim.  Used to state what the accepted path writes. -/
def expectedRows (startId : ℕ) (t e g : String) (ip ua : Option String) :
    List BodySub → List SubmissionRow
  | [] => []
  | s :: rest =>
    ⟨startId, t, e, g, s.question_id, s.score, s.comment, ip, ua⟩ ::
      expectedRows (startId + 1) t e g ip ua rest

/-! ## CPython `random`: MT19937

`assignment_engine.py` calls `random.seed(random_seed)` and
`random.shuffle(shuffled_students)`.  CPython's `random` is a Mersenne
Twister (MT19937); the definitions below follow `_randommodule.c`
(`init_genrand`, `init_by_array`, `genrand_uint32`) and `random.py`
(`getrandbits`, `_randbelow_with_getrandbits`, `shuffle`).  All words are
32-bit, modelled as naturals reduced mod `2^32`. -/

/-- Reduction to a 32-bit word. -/
def mask32 (x : ℕ) : ℕ := x % 4294967296

/-- `init_genrand` recurrence:
`mt[i] = (1812433253 * (mt[i-1] ^ (mt[i-1] >> 30)) + i) mod 2^32`. -/
def igStep (prev i : ℕ) : ℕ := mask32 (1812433253 * (prev ^^^ (prev >>> 30)) + i)

/-- `fuel` further words of the `init_genrand` recurrence, starting at index
`i` with previous word `prev`. -/
def igGo : ℕ → ℕ → ℕ → List ℕ
  | 0, _, _ => []
  | fuel + 1, i, prev =>
    let v := igStep prev i
    v :: igGo fuel (i + 1) v

/-- `init_genrand(s)`: the 624-word initial state. -/
def initGenrand (s : ℕ) : List ℕ := mask32 s :: igGo 623 1 (mask32 s)

/-- First `init_by_array` loop body for the key `[0]` (the key contribution
`init_key[j] + j` is always `0`):
`mt[i] = (mt[i] ^ ((mt[i-1] ^ (mt[i-1] >> 30)) * 1664525)) mod 2^32`. -/
def ibaStep1 (x prev : ℕ) : ℕ := mask32 (x ^^^ mask32 ((prev ^^^ (prev >>> 30)) * 1664525))

/-- Second `init_by_array` loop body:
`mt[i] = ((mt[i] ^ ((mt[i-1] ^ (mt[i-1] >> 30)) * 1566083941)) - i) mod 2^32`
(32-bit unsigned subtraction). -/
def ibaStep2 (x prev i : ℕ) : ℕ :=
  ((x ^^^ mask32 ((prev ^^^ (prev >>> 30)) * 1566083941)) + 4294967296 - i) % 4294967296

/-- The first `init_by_array` loop as a carry scan over the updated words in
index order (the carry is the freshly written previous word). -/
def ibaScan1 : ℕ → List ℕ → List ℕ
  | _, [] => []
  | prev, x :: xs =>
    let v := ibaStep1 x prev
    v :: ibaScan1 v xs

/-- The second `init_by_array` loop as a carry scan starting at index `i`. -/
def ibaScan2 : ℕ → ℕ → List ℕ → List ℕ
  | _, _, [] => []
  | i, prev, x :: xs =>
    let v := ibaStep2 x prev i
    v :: ibaScan2 (i + 1) v xs

/-- The MT state array right after Python `random.seed(0)`, following
`init_by_array(init_genrand(19650218), key=[0])`: the first loop runs 624
times (indices `1..623`, a wrap writing `mt[0] = mt[623]`, then index `1`
again), the second loop runs 623 times (indices `2..623`, the wrap, then
index `1`), and finally `mt[0] = 0x80000000`. -/
def seededMt0 : List ℕ :=
  let m := initGenrand 19650218
  let ys := ibaScan1 (m.headD 0) m.tail
  let n623 := ys.getLastD 0
  let n1 := ibaStep1 (ys.headD 0) n623
  let zs := ibaScan2 2 n1 ys.tail
  let m623 := zs.getLastD 0
  let m1 := ibaStep2 n1 m623 1
  2147483648 :: m1 :: zs

/-- `mag01[y & 1]`: `0x9908b0df` for odd `y`. -/
def mag01 (y : ℕ) : ℕ := if y % 2 = 1 then 2567483615 else 0

/-- One twisted word: `y = (cur & 0x80000000) | (nxt & 0x7fffffff)`;
`far ^ (y >> 1) ^ mag01[y & 1]`. -/
def twistStep (cur nxt far : ℕ) : ℕ :=
  let y := cur / 2147483648 * 2147483648 + nxt % 2147483648
  far ^^^ (y >>> 1) ^^^ mag01 y

/-- Pop the oldest element from a two-list queue (`0` if empty, unreachable
for the 624-word twist). -/
def qpop : List ℕ → List ℕ → ℕ × List ℕ × List ℕ
  | x :: f, b => (x, f, b)
  | [], b =>
    match b.reverse with
    | x :: f => (x, f, [])
    | [] => (0, [], [])

/-- The twist, word by word in index order.  `curs`/`nexts` stream the old
words `mt[kk]`/`mt[kk+1]`; the queue streams the `far` words: first the old
words `mt[kk+397]` (`kk ≤ 226`), afterwards the freshly produced words
`mt[kk-227]`, exactly as the in-place C loop reads them. -/
def twGo : List ℕ → List ℕ → List ℕ → List ℕ → List ℕ
  | [], _, _, _ => []
  | _ :: _, [], _, _ => []
  | c :: cs, n :: ns, front, back =>
    let p := qpop front back
    let v := twistStep c n p.1
    v :: twGo cs ns p.2.1 (v :: p.2.2)

/-- `genrand_uint32`'s state refresh: the next 624 words.  The final word
pairs `mt[623]` with the freshly twisted `mt[0]`. -/
def twist (mt : List ℕ) : List ℕ :=
  let n0 := twistStep (mt.headD 0) (mt.getD 1 0) (mt.getD 397 0)
  twGo mt (mt.tail ++ [n0]) (mt.drop 397) []

/-- The MT19937 tempering. -/
def temper (y : ℕ) : ℕ :=
  let y1 := y ^^^ (y >>> 11)
  let y2 := y1 ^^^ (mask32 (y1 <<< 7) &&& 2636928640)
  let y3 := y2 ^^^ (mask32 (y2 <<< 15) &&& 4022730752)
  y3 ^^^ (y3 >>> 18)

/-- A generator state: the 624-word array and the read index `mti`. -/
structure MTState where
  mt : List ℕ
  mti : ℕ
  deriving DecidableEq

/-- `genrand_uint32`: twist when the array is exhausted, then temper the next
word. -/
def genrand : MTState → ℕ × MTState
  | ⟨mt, mti⟩ =>
    if 624 ≤ mti then
      let mt2 := twist mt
      (temper (mt2.headD 0), ⟨mt2, 1⟩)
    else
      (temper (mt.getD mti 0), ⟨mt, mti + 1⟩)

/-- The generator state right after `random.seed(0)`. -/
def pythonSeed0 : MTState := ⟨seededMt0, 624⟩

/-- `getrandbits(k)` for `k ≤ 32`: the top `k` bits of one output word. -/
def getrandbits (st : MTState) (k : ℕ) : ℕ × MTState :=
  let p := genrand st
  (p.1 >>> (32 - k), p.2)

/-- `int.bit_length()`: halvings until zero (fuel `n` always suffices). -/
def bitLenGo : ℕ → ℕ → ℕ
  | 0, _ => 0
  | fuel + 1, n => if n = 0 then 0 else bitLenGo fuel (n / 2) + 1

/-- `int.bit_length()`. -/
def bitLen (n : ℕ) : ℕ := bitLenGo n n

/-- The rejection loop of `_randbelow_with_getrandbits`.  The Python loop has
no bound; the model carries fuel and falls back to `0` when it is exhausted,
a branch no concrete run below reaches. -/
def randbelowGo (n k : ℕ) : ℕ → MTState → ℕ × MTState
  | 0, st => (0, st)
  | fuel + 1, st =>
    let p := getrandbits st k
    if p.1 < n then p else randbelowGo n k fuel p.2

/-- `_randbelow_with_getrandbits(n)`: draw `n.bit_length()` bits until the
value is below `n`. -/
def randbelow (st : MTState) (n : ℕ) : ℕ × MTState := randbelowGo n (bitLen n) 1000 st

/-- `x[a], x[b] = x[b], x[a]` on a list (identity when an index is out of
range, unreachable in `shuffle`). -/
def listSwap {α : Type} (xs : List α) (a b : ℕ) : List α :=
  match xs.get? a, xs.get? b with
  | some va, some vb => (xs.set a vb).set b va
  | _, _ => xs

/-- `random.shuffle`'s loop, `for i in reversed(range(1, len(x)))`:
`j = _randbelow(i + 1)`, swap positions `i` and `j`. -/
def pyShuffleGo {α : Type} : ℕ → List α → MTState → List α × MTState
  | 0, xs, st => (xs, st)
  | i + 1, xs, st =>
    let p := randbelow st (i + 2)
    pyShuffleGo i (listSwap xs (i + 1) p.1) p.2

/-- `random.shuffle(x)` (Fisher–Yates from the top). -/
def pyShuffle {α : Type} (xs : List α) (st : MTState) : List α × MTState :=
  pyShuffleGo (xs.length - 1) xs st

/-! ## Assignment engine (`assignment_engine.py`)

`_generate_perfect_balanced_assignments`: seed the generator, shuffle a copy
of the student list, then for each position `i` of the shuffled list collect
`assignments_per_student` targets walking the ring `(i + offset) % n`,
skipping the evaluator itself unless self-evaluation is allowed, breaking
when `offset` passes `n`. -/

/-- The inner `while len(assigned_papers) < assignments_per_student` loop for
the evaluator at position `i` of the shuffled order, from the given `offset`
and accumulator. -/
def ringLoop (order : List String) (evaluator : String) (i k n : ℕ)
    (allowSelf : Bool) (offset : ℕ) (acc : List String) : List String :=
  if acc.length < k then
    if n < offset + 1 then
      if allowSelf ∨ order.getD ((i + offset) % n) "" ≠ evaluator then
        acc ++ [order.getD ((i + offset) % n) ""]
      else acc
    else
      ringLoop order evaluator i k n allowSelf (offset + 1)
        (if allowSelf ∨ order.getD ((i + offset) % n) "" ≠ evaluator then
          acc ++ [order.getD ((i + offset) % n) ""]
        else acc)
  else acc
  termination_by n + 1 - offset
  decreasing_by omega

/-- The `assigned_papers` list of the evaluator at position `i` of the
shuffled order (`offset` starts at `1` without self-evaluation, at `0` with
it). -/
def ringTargets (order : List String) (k : ℕ) (allowSelf : Bool) (i : ℕ) :
    List String :=
  ringLoop order (order.getD i "") i k order.length allowSelf
    (if allowSelf then 0 else 1) []

/-- The assignments dict: keyed by the students in roster order (the dict is
pre-seeded from `self.students`), each student's value computed at their
position in the shuffled order. -/
def perfectFromOrder (students order : List String) (k : ℕ)
    (allowSelf : Bool) : List (String × List String) :=
  students.map fun s => (s, ringTargets order k allowSelf (order.indexOf s))

/-- `_generate_perfect_balanced_assignments` from a given generator state:
shuffle the students, then assign along the ring. -/
def perfectFromState (st : MTState) (students : List String) (k : ℕ)
    (allowSelf : Bool) : List (String × List String) :=
  perfectFromOrder students (pyShuffle students st).1 k allowSelf

/-- The in-degree of target `t`: how many assigned-papers lists contain it,
with multiplicity. -/
def inDegree (asg : List (String × List String)) (t : String) : ℕ :=
  (asg.map fun p => p.2.count t).sum


/-! ### Literal chunks of the seed-0 state

The 624-word array of `seededMt0` written out, split into chunks small
enough for the kernel to evaluate one chunk at a time. -/

/-- Literal chunk of the seed-0 MT state computation. -/
def litA1 : List ℕ :=
  [2194844435, 874550967, 1417962806, 719805879, 2188372024, 721660136, 1814940559, 2833403150, 3889680837, 1003665704, 1330738387, 2892331238, 3489052161, 3855278296, 3311200630, 1422571577, 2585306665, 2882769417, 2783805802, 4207719964, 2400416080, 2341377904, 2590753297, 3924081815, 1211472509, 3057012486, 3436335279, 551149560, 1318655221, 1900533858, 3537525294, 2107812065, 3148644481, 594136785, 1814262168, 1224061569, 653651109, 254650943, 2832785922, 3699583528, 2088609312, 3529585711, 41492871, 2876012911, 4240588078, 1402615791, 1934126869, 3096545044, 2890863071, 80499043, 970921794, 3007610686, 750866145, 799115259, 3629971774, 2864380489, 3888374480, 2087741561, 3146346387, 3269762417, 2727485495, 2488668711, 2964190680, 2116659522, 4141458096, 3537107937, 3667677805, 2429248426, 2452306317, 3015982257, 499957222, 2360410630, 4194693085, 147288288, 3359074475, 1635136148, 4073107990, 3628367767, 3898116531, 275612352, 2842514961, 3115851985, 3103448722, 302309156, 22171017, 2075519075, 3671007489, 3949991970, 1963601502, 4167967445, 804406473, 1055110313, 3894654986, 2278780139, 34711884, 4121261916, 3468881884, 2287991389, 393453278, 548699130, 1499706375, 332872900, 1556864443, 1043137738, 4174970395, 1614747618, 669116410, 1897615374, 3255278936, 1370736725, 1550777747, 1685794058, 1862314184, 2400528575, 2672900100, 1647333586, 3524644532, 1765506473, 2857335743, 3636393737, 2932986219, 1203228647, 1628511289, 3647085204, 2987412752, 2905279128, 2631768385, 4014428911, 1727529885, 1124854030, 2262104686, 2499713312, 2421398767, 4134715143, 2358935835, 1002066021, 340444514, 3268366900, 1112268606, 1897974631, 3331577291, 2922602614, 3423543891, 1267030560, 2344564886, 1942259446, 3179572998, 1573187880, 1205933762, 3025229445]

/-- Literal chunk of the seed-0 MT state computation. -/
def litA2 : List ℕ :=
  [4246102746, 346693941, 2002220930, 1829519945, 3309743875, 1904872348, 955816590, 2796353700, 668528669, 2648785169, 2704726048, 893089804, 738773343, 2832484895, 2050343702, 104744889, 3439545764, 980222603, 422274176, 3865519914, 2026267864, 539814729, 4137805178, 1140607595, 2537690753, 3971218783, 1931293181, 3089667358, 1133695167, 399772074, 3682192071, 4293649418, 1029228868, 3902327948, 1974090788, 3344730195, 2795804747, 3396216457, 366677807, 416687433, 930072460, 901228284, 1521860141, 3484259358, 478803252, 3138556488, 4137898487, 3807832586, 3773310804, 3221624091, 3076008769, 4156878137, 406561453, 3897607181, 623564883, 2247148685, 1696011322, 2911604503, 3979653402, 742342831, 3881512158, 2282092805, 2681274264, 3681829528, 46152446, 3126539534, 3635632789, 1012335624, 3686064131, 2587648220, 2008745587, 2556071384, 1788453345, 861781568, 2727104545, 758340017, 1880693944, 2136364769, 1370367813, 798286522, 506003017, 2520802485, 2991500316, 3489134272, 3275208410, 1640252809, 3797759893, 4271912220, 3111882026, 140581304, 2568658569, 2686841033, 3059852298, 293994524, 1890650113, 1797269750, 3428669802, 1401714789, 2643788909, 3727894469, 2833360921, 1622853283, 3832221927, 277065458, 3711010937, 4192871202, 3356722694, 680496635, 2574997514, 1476265004, 3232676806, 3318710975, 4210635059, 4159903992, 2116300560, 2532158399, 718792604, 2539969944, 3164133583, 2649636591, 2200349072, 2851998122, 670873689, 2613796143, 3562264788, 1174445287, 1149173203, 2225964784, 4266377361, 3119455410, 1518371465, 1816545474, 2516586762, 240910660, 2681595121, 1301176317, 3127753611, 862342957, 771183330, 438085196, 1046497567, 922186079, 1222939296, 51184555, 1757804190, 426665187, 2730510776, 2573705612, 1312406577, 667742236]

/-- Literal chunk of the seed-0 MT state computation. -/
def litA3 : List ℕ :=
  [3239950393, 2582034960, 3759737929, 1601926242, 2947737408, 975540284, 1285948639, 3761027786, 1226457986, 34782949, 2916146832, 142734034, 569716755, 4042990521, 3947471773, 1575951506, 3517313596, 3100986137, 2199197158, 3376719924, 4087139828, 3705107125, 1482533137, 1541227668, 1678953742, 2056318769, 3045003063, 1622629937, 487578169, 4137196231, 3764647071, 2241527512, 2558474063, 1038354351, 2094837850, 2481932343, 3229539130, 3756851151, 1006180559, 4181103103, 3565909441, 2371373280, 1493415041, 160348120, 1285104017, 3595587370, 4264242568, 1161124915, 2042766103, 737713932, 3481808155, 478389208, 1300643225, 1007986266, 1168231653, 3652705112, 2909421388, 3924670764, 1731016690, 4084014919, 4205099837, 1373900512, 2937538864, 2730075174, 957417377, 3258199283, 87174175, 792789163, 2527971304, 2716998340, 3091367825, 97659251, 1782441684, 919015551, 735476370, 87326482, 926205331, 1888657273, 3715638227, 1715499660, 1922410526, 4175228089, 1525608673, 3578587616, 2042086160, 3730509879, 3607443975, 3879209240, 3652717612, 2372597521, 3471943430, 2765853569, 3643232056, 3297105617, 2692883557, 1805942063, 1394934451, 3337180104, 1181922214, 2331394419, 306465830, 3736887952, 1729663122, 3390355091, 2379159653, 3851731257, 4021176185, 1079541434, 433656928, 1831627642, 2892512290, 4063025724, 406246264, 1293199350, 1120564498, 3926678815, 1350089133, 4273098366, 3385122292, 993379095, 725502136, 25504318, 752278045, 3729298457, 2392480235, 2657233815, 320925812, 2950230896, 989728679, 506301841, 1404204260, 1413065993, 865242585, 866785615, 1859142878, 589268143, 775553472, 1410495094, 1607063978, 3888932143, 704411669, 3513884419, 3370826939, 2896358996, 439226283, 2352722741, 1626809714, 246502175, 189424636, 1337937966]

/-- Literal chunk of the seed-0 MT state computation. -/
def litA4 : List ℕ :=
  [3719088974, 4178799653, 2794717891, 1831166187, 1862432793, 2263235392, 3847861459, 802662362, 3621709005, 2634319122, 3245216029, 1466421412, 1528864744, 349292989, 3152395874, 3374677426, 2279952808, 1238578150, 107682552, 913857966, 3747681661, 3560958606, 3617063034, 1988620951, 1854864649, 1862999556, 2962654934, 1498851202, 2003448718, 2942754891, 798789550, 3882536840, 3338815162, 3066948065, 2057094004, 4171611151, 4284063395, 2325690120, 2659914459, 165909127, 2783186990, 2161504072, 343671839, 2751150377, 3621950182, 222528329, 3219381950, 238911006, 2710753737, 2982111755, 1115859074, 156211365, 228231184, 2302165064, 933165355, 4181545713, 2201173365, 291303663, 19134280, 3581811046, 68817880, 1037069880, 2445243929, 2507869609, 1468655994, 2646143627, 2709652242, 559859542, 2657856757, 248278651, 656698256, 2682159578, 3542996035, 2775252812, 1761180115, 3646714856, 2330951878, 834843492, 3951905925, 744286448, 3621804227, 2822882772, 1168938371, 3349647456, 672527398, 1163635478, 3445281068, 722448549, 3543924788, 2823456463, 1931863550, 2483173049, 4148604134, 3081487737, 2916138664, 940193076, 4142650279, 2563327448, 3737140007, 2407111514, 243557343, 1657192483, 3995730323, 1012445178, 2365602253, 2830079959, 2287658550, 2893719730, 2373631903, 4215513121, 189686171, 2003138393, 3410898923, 1020530876, 1103312993, 1976606742, 899447370, 1949555562, 3167671920, 595304244, 1919198655, 2929333298, 619161901, 623498751, 2063591130, 763251111, 4291719204, 3951567013, 2998385089, 758818611, 1375945828, 2510752543, 4188334520, 121785359, 3225750324, 1354685949, 1643999927, 911976986, 518523023, 3993561529, 2326708913, 336174575, 853096604, 2873283550, 4022490143, 3010604384, 2080594943, 1702902668, 3360749048, 4184957279]

/-- Literal chunk of the seed-0 MT state computation. -/
def litA5 : List ℕ :=
  [2421794725, 4155016765, 3104188113, 1576615579, 604774175, 2739462297, 4096823942, 1932918233, 1779286169, 2544260698, 1430072091, 2196303270, 4237199385, 2613550760, 1481676153, 2920297152, 2463881971, 1098865791, 2939219489, 2494804283, 3108728554, 1635052534, 2905164258]

/-- Literal chunk of the seed-0 MT state computation. -/
def litY1 : List ℕ :=
  [4287170993, 2987719869, 1122994821, 1960443139, 4252847394, 2136127557, 124762363, 1543580593, 2154858037, 1297941475, 285625001, 100096115, 2986277334, 3808151324, 2407178213, 2528481410, 2169761961, 671729830, 592106756, 2480725800, 3241107570, 2438167757, 1329926802, 3047636960, 1378996231, 3821648712, 4041421920, 3234710783, 1293057081, 429999802, 2773674332, 1174267175, 2890614383, 3186544472, 1739264522, 1728511502, 4076735590, 3399382302, 1951556219, 2245441050, 1555130648, 2050127978, 277126888, 2581133479, 2012308303, 2766874905, 1723643722, 4133599195, 3389092903, 689007799, 2630711305, 1041368497, 3484844316, 4028395368, 3205870417, 1980946302, 1811638691, 2229043523, 2172787166, 847275357, 1013912462, 2820309009, 714532655, 2742345249, 2013633399, 1349260063, 3650404075, 1703756386, 2120345738, 2432110014, 1051469674, 326975076, 33156297, 3312282837, 2296816245, 3613825183, 1257854458, 1412046888, 3668734374, 4182442401, 489355051, 90476542, 3753008500, 2683303471, 3304596416, 659647108, 213393845, 2785332243, 809241731, 1623062130, 2229276958, 2400039621, 3330270737, 104379905, 2909736257, 2899454267, 1198203449, 802485893, 1282743327, 1788877436, 2475135582, 3740805736, 188224724, 3438576142, 2136487602, 2499677941, 1730005873, 2291836094, 1641994452, 3190892676, 1876201309, 983483046, 1389670054, 2410102980, 3723630090, 2193876135, 3611071701, 4085100407, 970021723, 2639532694, 3821943023, 210052123, 1423543142, 1086588079, 1793056198, 3842082691, 3830282433, 2948153141, 2165251158, 340394314, 581662380, 1043797916, 4196648451, 3167203591, 4239555162, 3745184992, 2628160741, 3521602447, 3512600866, 2357352394, 1655959779, 2501650188, 1448390117, 1365046964, 3356401063, 324394914, 3033303100, 2810015246, 2105690206, 3991654486]

/-- Literal chunk of the seed-0 MT state computation. -/
def litY2 : List ℕ :=
  [2673741963, 991186368, 3650422082, 2634967044, 444924749, 3676099445, 2076531312, 1723557145, 3875226149, 3509731071, 1786200812, 1088859141, 749509995, 3258706544, 3684334273, 3062743139, 1146169161, 2577443875, 3118303021, 30715977, 1978494317, 1713339701, 53606110, 1852815149, 2528232381, 1948252140, 2878354676, 4015661408, 270464184, 450868466, 4033828493, 4192869692, 4008271735, 2561596520, 2259112262, 3084431399, 2036873130, 3930444582, 1133672910, 2834926794, 4112781732, 3197880711, 881100780, 1900247778, 3204930227, 3352933045, 2712389321, 4063629381, 2398654682, 2976612323, 3812233004, 3495072346, 3708438056, 3288167970, 1594097150, 3183393662, 2506750326, 2173857267, 1173498407, 200410945, 1490839699, 51937903, 920462907, 2035101799, 2800362448, 4193274020, 1590059246, 1851662891, 2848626721, 2842610459, 3813031990, 1426713961, 534372265, 2012418005, 3654686181, 2906495263, 988694721, 1991885100, 3060111884, 3866919948, 676286602, 366507959, 3200340567, 253491857, 2707278215, 1607433288, 1316114976, 1935697073, 2689118682, 1891896896, 2732655044, 3092384711, 2239345419, 3521293673, 2554593891, 1694493723, 3955621944, 2976185498, 1946707925, 3209468417, 4000164926, 3231566778, 1747656322, 1671434325, 2967979069, 2281124369, 2169477873, 1108164012, 1046435779, 3995345611, 597151726, 1543758249, 3145356475, 2130320285, 3050021372, 3109930585, 259633923, 1453888703, 2767821161, 1387156096, 896810781, 2552220627, 1808213956, 788127278, 2011645058, 2866098240, 268518025, 1264480261, 2593818789, 2104846025, 1978755745, 4212679394, 2308684391, 861254757, 3233973200, 1737464906, 126773828, 2991600217, 3237118589, 813724202, 4101816637, 3365270905, 2696053138, 3971151867, 3823014150, 1895579554, 3621086463, 1103702336, 3401990780, 4013558383]

/-- Literal chunk of the seed-0 MT state computation. -/
def litY3 : List ℕ :=
  [2344105797, 2109121163, 3868864843, 2852406474, 2727725416, 2702239326, 604397171, 1996695325, 1465935854, 4256645062, 2988664209, 421415077, 1315790450, 949075566, 1632492555, 779432976, 4125619948, 3193212730, 3569778750, 2724559149, 1889152151, 1558803755, 1979582003, 2493347870, 1619299426, 382041142, 1303764361, 1786720729, 3915795905, 3280446493, 3763780889, 4006807690, 2466263994, 2775709687, 2053014827, 1931097877, 1799626558, 2078494716, 2548548886, 3070782459, 3846751332, 1549421531, 1243284115, 3475634866, 4141113708, 2099405705, 948179040, 1403930835, 3030220221, 406381503, 3972040616, 3876300407, 3971716733, 1239318076, 4281105404, 321339051, 398684131, 3913390507, 2614659706, 1167050591, 3008243963, 1853375557, 2665858628, 1496928680, 1860336692, 3256762434, 709756242, 3998740865, 751749234, 2626519822, 2580604941, 2958748592, 1490354910, 2675699500, 4257416132, 4058186761, 371848465, 3070077092, 154245053, 1831825429, 378601754, 4287334123, 3834689833, 2406927042, 321325264, 3163898535, 1496980070, 2780784675, 14050177, 2739635356, 2615875328, 1905747099, 820525290, 1440205107, 1552091119, 3316270649, 4000296513, 1499821714, 3451004113, 2412760025, 325963833, 3450284661, 1459010412, 3436004378, 1479570208, 3810082708, 586359762, 1719141136, 1210120637, 1571159542, 500528041, 692187049, 3714142957, 1395568096, 2404716415, 1153354310, 323958326, 727124672, 665900596, 1599232947, 3072842930, 3181477582, 2003984961, 3799837017, 2172775545, 4055314344, 4192107995, 256934024, 1567275343, 1123283303, 2016776906, 2637298502, 1557682093, 1243407091, 22394516, 798144811, 3679946991, 924420490, 945496488, 2461909159, 4152229492, 1327089928, 614692814, 495306530, 626698001, 3639603944, 924635805, 3607588070, 2288690781, 3846446333]

/-- Literal chunk of the seed-0 MT state computation. -/
def litY4 : List ℕ :=
  [1098672040, 4245484976, 2761739988, 1684055093, 3429594813, 1303675110, 2437685608, 3595585976, 3312034994, 2923456495, 1773970452, 3647366069, 3381857238, 3995778668, 50813889, 3269653375, 2655032548, 113377352, 2895489360, 3630831748, 2000231846, 1631183349, 3344150814, 3038871278, 2665448693, 1937257615, 1400879584, 299086319, 3616960685, 1273097373, 3597116482, 3731157701, 4264787636, 2050273450, 156817883, 3726044688, 1454978644, 197498713, 2240558942, 130737451, 942396673, 2665797701, 1254506884, 2480040168, 1102322948, 3799118856, 66787377, 2450636387, 3047719204, 1208408293, 3548738326, 803319476, 1681858356, 3236492281, 1206716057, 1169995593, 579912669, 2661675222, 2956346764, 2284324176, 1697833714, 2926392943, 1046431632, 2333151225, 1010251973, 118592138, 172191248, 59257222, 3654306619, 1757958051, 3483172010, 1543220047, 2139820725, 310203496, 1994375323, 645419066, 861056564, 3194823616, 1311854687, 1541955638, 1902220296, 3213942689, 265148612, 995199380, 3346858146, 3121186107, 2373691593, 3679765738, 4156544481, 1330474677, 3283858138, 2767830460, 2660301376, 4130260003, 3832810248, 3528967355, 707108607, 820046123, 54903304, 1742442802, 3783250504, 2287751148, 1827463813, 896841550, 2475973435, 735952946, 3521267900, 1079665409, 2121513119, 1973351463, 759294069, 889265320, 632245091, 575624891, 2468073758, 2359715450, 1197702738, 3998132061, 1947542966, 595807103, 256035532, 2676457582, 2239702097, 3642834888, 4195482005, 293550393, 3575508417, 481984127, 2901524402, 4293688515, 896897444, 1571075659, 3600569466, 1747700778, 1837140763, 214151599, 2570046804, 3606584132, 1905173524, 1906530984, 1061499428, 3121118779, 445851257, 400357883, 1150805920, 332121165, 555220502, 1746571410, 891165839, 2192444444]

/-- Literal chunk of the seed-0 MT state computation. -/
def litY5 : List ℕ :=
  [3133224483, 925983632, 2369472641, 2185813564, 2118246969, 1673145409, 1684352454, 2465882306, 3322849625, 3886293960, 4250310740, 3162475469, 4159380378, 1848099437, 878146053, 206305921, 3466577022, 400856102, 1852327887, 3216377933, 2853144809, 1396604441, 3723017946]

/-- Literal chunk of the seed-0 MT state computation. -/
def litZ1 : List ℕ :=
  [497961170, 3952298588, 2331775348, 1811986599, 3100132149, 3188119873, 3937547222, 215718963, 3315684082, 2978012849, 2428261856, 1298227695, 1704729580, 54668373, 3285201915, 3285178464, 1552935063, 988471319, 3135387943, 1691402966, 2757551880, 416056905, 907387413, 1072924981, 33903495, 2168419592, 2429050353, 831159753, 430343641, 3315943586, 1761671042, 864453023, 334804929, 1627478028, 2596811275, 3468733638, 3994375553, 1457139722, 3139722021, 1334790738, 2656639915, 3535811098, 1464315470, 2397423927, 885719490, 1140895889, 3284299483, 2854516462, 2734973817, 147484763, 792049954, 114360641, 3345458839, 1159898878, 1410498733, 2242989638, 453922141, 1344019764, 413870456, 3089405849, 1494382840, 470157779, 4266372830, 2831181573, 1361928602, 1589253513, 1381373062, 753045124, 987032420, 781978839, 2953638767, 3258570111, 3006718191, 1675218601, 1854232715, 3655829819, 1731242722, 2192104666, 1736665161, 740150002, 1195833394, 1610203160, 159492766, 4041488705, 3128952632, 2867295744, 3272632449, 886824304, 1791482600, 221114776, 3867175393, 4020804062, 1077871826, 1298953503, 996366221, 4149754679, 2483052703, 2615558283, 274318093, 1716359450, 4099129961, 1026774175, 288240973, 1459347562, 2365566296, 3690105224, 3065780221, 2050634722, 2652606621, 3185241207, 3026457375, 3456165734, 1880121515, 3398461093, 1795638629, 2379692076, 608668379, 1261955525, 84456522, 1913485156, 106878280, 757183891, 2913957588, 160418091, 2025664758, 141497907, 1657818026, 3053760160, 672193054, 4157546743, 223046484, 1623470498, 1201972930, 675008814, 684162366, 1738776330, 3025656654, 159760723, 1908867305, 3933381342, 2545706671, 467196949, 1427819885, 842150314, 4032903454, 2140851898, 3269883445, 975813755, 4177392955]

/-- Literal chunk of the seed-0 MT state computation. -/
def litZ2 : List ℕ :=
  [1556690684, 2535611513, 462962732, 67591358, 1729610528, 2025206740, 3153739740, 3255032049, 4186226368, 1070144624, 3107867195, 1621006038, 63742485, 835629717, 3189842019, 3950227584, 3184714559, 841836938, 1685394870, 657939920, 766156242, 1412314179, 1048281639, 4037161120, 2044490307, 1923947830, 3900790422, 907554295, 276417304, 860658646, 3574201134, 3508771399, 2110232300, 1636296241, 1405006077, 1093408401, 3243057343, 1519791182, 1994660136, 3829840937, 2644974199, 957955566, 3487641161, 1646922510, 1907939989, 3836029453, 3429168778, 201307778, 72550089, 2464394982, 1695794191, 3344785682, 996786130, 3589457196, 1241754792, 1291082245, 4224603667, 1194379475, 2693491244, 881186965, 2705535111, 445306946, 440274268, 1980827733, 2482488861, 3205215943, 2119332222, 2928713046, 1418736938, 652581136, 2474070665, 2208621536, 4171251876, 2303664214, 443762656, 2981912989, 2199228311, 2652261633, 3166738494, 3443009210, 3498764432, 424010848, 4065487566, 2262993542, 1756076712, 1477098233, 2742171915, 306185806, 3610666541, 923091830, 1034267993, 2336668648, 1880719718, 676878038, 3788797208, 3763351494, 3985428106, 1101865631, 1130501258, 3672967388, 3432003530, 4124438011, 1660392285, 4025484827, 2108074566, 3815409682, 42955331, 3248965569, 1643835718, 1246665668, 1071162194, 3814069229, 115491158, 985096811, 3311029186, 2990827378, 3101633320, 1648574497, 1470117052, 174145027, 2019894819, 2035501481, 459104123, 3507464599, 2093352659, 3369174406, 618767835, 4009895756, 935587447, 3956987426, 33753995, 307782427, 2473424805, 1440371818, 2382619594, 2138695812, 3164510238, 1318650933, 2910086616, 3886677510, 566832801, 3718063320, 1559818704, 183047272, 1142362855, 26306548, 645536402, 3875596208, 2272778168, 3512733409]

/-- Literal chunk of the seed-0 MT state computation. -/
def litZ3 : List ℕ :=
  [1897046338, 38248886, 2570759766, 1806313150, 860304898, 2433450338, 4124013408, 1216634590, 1275388896, 1169566669, 652504502, 761221427, 1448403764, 3129135949, 2513214949, 1269533687, 2413509541, 1226750363, 2450740925, 4094137910, 945759293, 3636927736, 3178020081, 2509964157, 3878869300, 1848504895, 2018369720, 1579755740, 1023627943, 924838836, 2653160914, 1812804174, 1521323076, 4012390528, 1338763317, 2608655937, 16022784, 1672945066, 2177189646, 2944458483, 2213810972, 1369873847, 1224017670, 130901785, 3595066712, 2259115284, 3316038259, 455873927, 2917250465, 3599550610, 1502173758, 684943436, 3079863840, 3144992244, 942855823, 1771140188, 2118780653, 3411494225, 2711180217, 4239611184, 1371891067, 3398566397, 3105518599, 1310665701, 3345178451, 2959821156, 242241789, 2148966880, 3192740583, 404401893, 3605380577, 1446464038, 3920522056, 2577523013, 1079274576, 286634372, 1752710796, 2351075979, 981312309, 3410516352, 3468455736, 1938779182, 1592494371, 1533303080, 88045436, 438252489, 1220512168, 3487004938, 3724852871, 1073434882, 3728218947, 2977555283, 4105408406, 3553772656, 1462006821, 3917158017, 119003006, 3470530198, 3439192457, 2829375771, 3555715155, 32324691, 588735808, 1459221702, 803072782, 2699519868, 1530797005, 79738580, 671990400, 4289511388, 3207115447, 2584684068, 832698998, 760958416, 1217440464, 2517898131, 2418819938, 3629956222, 3445024962, 206619378, 365007395, 522114139, 1707954431, 540423623, 1786750801, 369253262, 4239016754, 147889201, 1637777773, 236798285, 2806120188, 586972608, 2201782716, 1323327827, 819485723, 406078680, 3407345698, 1537169369, 1821691865, 527271655, 3751827102, 1465426495, 3321682429, 2179672664, 401355478, 1068871880, 24609462, 1403522408, 2311580015, 1532058170]

/-- Literal chunk of the seed-0 MT state computation. -/
def litZ4 : List ℕ :=
  [3877815340, 1768430711, 1619755157, 2832904331, 475102697, 354987331, 3295386430, 2816873951, 1039415736, 363972779, 1499307670, 2895506264, 3746345349, 2678027234, 3251899088, 955392878, 2329157295, 1343358773, 309573887, 2410178377, 2843173466, 361132917, 1755816798, 1319204283, 609284796, 1998842567, 1892325921, 223190385, 1483015769, 2876023365, 3876009312, 3199738344, 491524099, 160383137, 1219178873, 3870310498, 1114580266, 4279604166, 855339774, 1983818547, 2297848784, 4118592947, 4084409863, 2225095054, 4215601993, 946447434, 4205503762, 146088676, 778046685, 1876936928, 3157333726, 2173097090, 3215738813, 4135448234, 1219619643, 1936128689, 2897130162, 3336043946, 3779039524, 4200886837, 1359380925, 3402593091, 3140713935, 50855190, 3122065768, 1501584468, 2512255124, 687125154, 2666013386, 837819715, 3057258172, 3653455791, 2868624990, 322131992, 42534870, 4036564806, 798099710, 3533853670, 190914037, 3726947981, 2601169403, 602059656, 1365668439, 1918780004, 394790500, 277566007, 3891847777, 3365421094, 3139612253, 1380519090, 1183088424, 4203794803, 3049949521, 4214159484, 3446206962, 1875544460, 3207220027, 3288287026, 913535288, 178159620, 1410694581, 4190575040, 880731713, 1427805121, 404869072, 3413191414, 2865934056, 2899472677, 4239222733, 688404529, 3923323887, 933651074, 1199453686, 642723732, 2850614853, 3104368451, 3054041024, 3129913503, 2805843726, 1829781129, 3479062313, 650272704, 4224852052, 4085038685, 2616580676, 1793860711, 585126334, 2995262791, 520446536, 3855655015, 1571815563, 2240778227, 2051010344, 1694977983, 788402852, 1988089041, 2035558649, 1800063056, 1234412692, 2490862867, 417320514, 2415019489, 3374117797, 136034611, 898704236, 1247106941, 3923519397, 3563607190, 2454738671, 3522360389]

/-- Literal chunk of the seed-0 MT state computation. -/
def litZ5 : List ℕ :=
  [2672645476, 146828884, 3985140042, 4233949333, 1184742586, 860278824, 2815489967, 983483427, 3190081845, 3288865305, 3575181235, 1292151129, 4007823805, 4049420597, 3499391972, 1611182906, 1721268432, 2944249577, 2487212557, 789127738, 4027610014, 1057334138, 2902720905]

/-- `init_genrand(19650218)` as a literal. -/
def litA : List ℕ :=
  19650218 :: (litA1 ++ (litA2 ++ (litA3 ++ (litA4 ++ litA5))))

/-- The first `init_by_array` scan output as a literal. -/
def litY : List ℕ := litY1 ++ (litY2 ++ (litY3 ++ (litY4 ++ litY5)))

/-- The second `init_by_array` scan output as a literal. -/
def litZ : List ℕ := litZ1 ++ (litZ2 ++ (litZ3 ++ (litZ4 ++ litZ5)))

/-- The full seed-0 state array as a literal. -/
def litMT : List ℕ := 2147483648 :: 766982754 :: litZ

/-! # Theorems -/

/-- Claim C1: for every student with a computed final grade, the entry of
`calculate_final_grades` satisfies
`weighted = (1 − α)·q̂ + α·θ·100`, `final = max(q̂, weighted)`, hence
`final ≥ q̂`, and `protection_used` holds exactly when `weighted < q̂`. -/
theorem C1_final_grade_floor {K : Type} [LinearOrderedField K] [DecidableEq K]
    [DecidableRel ((· < ·) : K → K → Prop)] (alpha : K)
    (users : List (String × K)) (ig : String → Option K) (e : FinalEntry K)
    (he : e ∈ calculate_final_grades alpha users ig) :
    e.weighted_grade = (1 - alpha) * e.consensus_score +
        alpha * e.incentive_weight * 100 ∧
    e.final_grade = max e.consensus_score e.weighted_grade ∧
    e.consensus_score ≤ e.final_grade ∧
    (e.protection_used = true ↔ e.weighted_grade < e.consensus_score) := by
  rw [calculate_final_grades, List.mem_filterMap] at he
  obtain ⟨p, _, hmap⟩ := he
  rw [Option.map_eq_some'] at hmap
  obtain ⟨q, _, rfl⟩ := hmap
  refine ⟨rfl, rfl, le_max_left _ _, ?_⟩
  show (decide _ && decide _) = true ↔ _
  simp only [Bool.and_eq_true, decide_eq_true_eq, finalEntry]
  constructor
  · rintro ⟨-, h⟩; exact h
  · intro h; exact ⟨max_eq_left h.le, h⟩

/-- Witness for C1 at the spec's E6 scenario: `α = 0.1`, `q̂ = 90`,
`θ = 0.1`, so `weighted = 82`, `final = 90`, protection used. -/
theorem C1_final_grade_floor_witness :
    (finalEntry (1/10 : ℚ) "s" 90 (1/10)) ∈
      calculate_final_grades (1/10 : ℚ) [("s", 1/10)]
        (fun n => if n = "s" then some 90 else none) ∧
    ((finalEntry (1/10 : ℚ) "s" 90 (1/10)).weighted_grade = 82 ∧
     (finalEntry (1/10 : ℚ) "s" 90 (1/10)).final_grade = 90 ∧
     (finalEntry (1/10 : ℚ) "s" 90 (1/10)).protection_used = true) ∧
    ((finalEntry (1/10 : ℚ) "s" 90 (1/10)).weighted_grade =
        (1 - 1/10) * (finalEntry (1/10 : ℚ) "s" 90 (1/10)).consensus_score +
          1/10 * (finalEntry (1/10 : ℚ) "s" 90 (1/10)).incentive_weight * 100 ∧
     (finalEntry (1/10 : ℚ) "s" 90 (1/10)).final_grade =
        max (finalEntry (1/10 : ℚ) "s" 90 (1/10)).consensus_score
          (finalEntry (1/10 : ℚ) "s" 90 (1/10)).weighted_grade ∧
     (finalEntry (1/10 : ℚ) "s" 90 (1/10)).consensus_score ≤
        (finalEntry (1/10 : ℚ) "s" 90 (1/10)).final_grade ∧
     ((finalEntry (1/10 : ℚ) "s" 90 (1/10)).protection_used = true ↔
        (finalEntry (1/10 : ℚ) "s" 90 (1/10)).weighted_grade <
          (finalEntry (1/10 : ℚ) "s" 90 (1/10)).consensus_score)) := by
  refine ⟨?_, ⟨?_, ?_, ?_⟩,
    C1_final_grade_floor (1/10) [("s", 1/10)]
      (fun n => if n = "s" then some 90 else none) _ ?_⟩
  · simp [calculate_final_grades, List.filterMap_cons]
  · simp only [finalEntry]; norm_num
  · show max (90 : ℚ) ((1 - 1/10) * 90 + 1/10 * (1/10) * 100) = 90
    norm_num
  · show (decide _ && decide _) = true
    rw [Bool.and_eq_true, decide_eq_true_eq, decide_eq_true_eq]
    norm_num
  · simp [calculate_final_grades, List.filterMap_cons]

/-- Claim C8: the reputation of a reviewer with finite variance is
`max(0, R_max − (R_max/v_G)·√(max(0, variance)))`, and every reputation —
including for infinite variance — lies in `[0, R_max]`, given `R_max ≥ 0`
and `v_G > 0` (the processor uses `R_max = 1`, `v_G = 8`). -/
theorem C8_reputation_bounds (Rmax vG : ℝ) (hR : 0 ≤ Rmax) (hv : 0 < vG)
    (v : VarV) :
    (∀ q : ℚ, v = .fin q →
        reputation Rmax vG v =
          max 0 (Rmax - Rmax / vG * Real.sqrt (max 0 (q : ℝ)))) ∧
    0 ≤ reputation Rmax vG v ∧ reputation Rmax vG v ≤ Rmax := by
  refine ⟨fun q hq => by rw [hq]; rfl, ?_, ?_⟩
  · cases v with
    | fin q => exact le_max_left _ _
    | inf => exact le_refl _
  · cases v with
    | fin q =>
      refine max_le hR ?_
      have h1 : 0 ≤ Rmax / vG * Real.sqrt (max 0 (q : ℝ)) :=
        mul_nonneg (div_nonneg hR hv.le) (Real.sqrt_nonneg _)
      simpa [reputation] using sub_le_self Rmax h1
    | inf => exact hR

/-- Witness for C8 at `R_max = 1`, `v_G = 8`, variance `0`: the reputation is
`max 0 (1 - 1/8·√0) = 1`. -/
theorem C8_reputation_bounds_witness :
    ((0 : ℝ) ≤ 1 ∧ (0 : ℝ) < 8) ∧
    reputation 1 8 (.fin 0) = 1 ∧
    (0 ≤ reputation 1 8 (.fin 0) ∧ reputation 1 8 (.fin 0) ≤ 1) := by
  refine ⟨⟨by norm_num, by norm_num⟩, ?_, ?_⟩
  · have h := (C8_reputation_bounds 1 8 (by norm_num) (by norm_num) (.fin 0)).1
      0 rfl
    rw [h]
    norm_num
  · exact (C8_reputation_bounds 1 8 (by norm_num) (by norm_num) (.fin 0)).2

/-- Claim C2 fails on the processor: on the graph
`A→P:10, A→Q:10, B→P:0, C→Q:6` with the initial uniform reputations `1`,
`evaluate_items` gives consensus `P ↦ 5`, `Q ↦ 8` with item variances
`25, 4`, and `evaluate_users` assigns reviewer `A` the variance
`((5+2)/2)² = 49/4`, while the claimed inverse-variance weighted mean of the
squared differences `25, 4` is `2000029/290002 ≈ 6.9`. -/
theorem C2_variance_formula_counterexample :
    userVariance [⟨"A", "P", 10⟩, ⟨"A", "Q", 10⟩, ⟨"B", "P", 0⟩, ⟨"C", "Q", 6⟩]
        (itemGrade [⟨"A", "P", 10⟩, ⟨"A", "Q", 10⟩, ⟨"B", "P", 0⟩, ⟨"C", "Q", 6⟩]
          fun _ => 1) "A" = .fin (49/4) ∧
    claimedUserVariance
        [⟨"A", "P", 10⟩, ⟨"A", "Q", 10⟩, ⟨"B", "P", 0⟩, ⟨"C", "Q", 6⟩]
        (itemGrade [⟨"A", "P", 10⟩, ⟨"A", "Q", 10⟩, ⟨"B", "P", 0⟩, ⟨"C", "Q", 6⟩]
          fun _ => 1)
        (itemVariance [⟨"A", "P", 10⟩, ⟨"A", "Q", 10⟩, ⟨"B", "P", 0⟩, ⟨"C", "Q", 6⟩]
          fun _ => 1) (1/10000) "A" = 2000029/290002 ∧
    (49/4 : ℚ) ≠ 2000029/290002 := by
  refine ⟨?_, ?_, by norm_num⟩
  · simp [userVariance, userDiffs, userItems, itemGrade, itemScores, itemUsers,
      gradeOf, npMean, List.filter]
    norm_num
  · simp [claimedUserVariance, userItems, itemGrade, itemVariance, itemScores,
      itemUsers, gradeOf, npMean, npVar, List.filter]
    norm_num

/-- Pointwise product of two mapped copies of the same list. -/
theorem zipWith_mul_map_sum {α : Type} (l : List α) (v w : α → ℚ) :
    (List.zipWith (· * ·) (l.map v) (l.map w)).sum =
      (l.map fun m => v m * w m).sum := by
  induction l with
  | nil => rfl
  | cons m t ih => simp [ih]

/-- Dividing a mapped sum termwise, commuting each term into
normalized-weight form. -/
theorem sum_mul_div_eq_normalized {α : Type} (l : List α) (v w : α → ℚ)
    (W : ℚ) :
    (l.map fun m => v m * w m).sum / W = (l.map fun m => w m / W * v m).sum := by
  induction l with
  | nil => simp
  | cons m t ih =>
    simp only [List.map_cons, List.sum_cons, add_div, ih]
    congr 1
    ring

/-- Claim C2, amended: the inverse-variance weighted mean of squared
differences lives in the core Vancouver's final user aggregation
(`_aggregate_user_messages`), where the variance of a reviewer with messages
is exactly the squared differences `(given − item.consensus)²` averaged with
the normalized weights `(1/(bp + m.variance)) / Σ (1/(bp + variance))`; the
processor's per-iteration `evaluate_users` instead computes the square of the
unweighted mean of the absolute differences `|given − item.consensus|` over
the reviewed items with a computed consensus. -/
theorem C2_user_variance_amended :
    (∀ (bp : ℚ) (msgs : List UserMsg), msgs ≠ [] →
      aggregate_user_messages bp msgs =
        some ((msgs.map fun m =>
          (1 / (bp + m.msgVariance)) /
              ((msgs.map fun m2 => 1 / (bp + m2.msgVariance)).sum) *
            (m.given - m.itemConsensus) ^ 2).sum)) ∧
    (∀ (rs : List Review) (ig : String → Option ℚ) (u : String),
      userItems rs u ≠ [] →
      userVariance rs ig u =
        .fin (((userDiffs rs ig u).sum / (userDiffs rs ig u).length) ^ 2)) := by
  constructor
  · intro bp msgs h
    rw [aggregate_user_messages, if_neg h]
    show some ((List.zipWith (· * ·)
        (msgs.map fun m => (m.given - m.itemConsensus) ^ 2)
        (msgs.map fun m => 1 / (bp + m.msgVariance))).sum /
          (msgs.map fun m => 1 / (bp + m.msgVariance)).sum) = _
    congr 1
    rw [zipWith_mul_map_sum, sum_mul_div_eq_normalized]
  · intro rs ig u h
    rw [userVariance, if_neg h]
    by_cases hd : userDiffs rs ig u = []
    · simp [hd]
    · simp [hd, npMean]

/-- Witness for C2's amended statement: a two-message user in the core graph
gets the weighted variance `4`, and reviewer `A` of the counterexample graph
gets `(7/2)² = 49/4` from the processor. -/
theorem C2_user_variance_amended_witness :
    (([⟨3, 1, 1⟩, ⟨0, 2, 3⟩] : List UserMsg) ≠ [] ∧
      aggregate_user_messages 1 [⟨3, 1, 1⟩, ⟨0, 2, 3⟩] = some 4) ∧
    (userItems [⟨"A", "P", 10⟩, ⟨"A", "Q", 10⟩, ⟨"B", "P", 0⟩] "A" ≠ [] ∧
      userVariance [⟨"A", "P", 10⟩, ⟨"A", "Q", 10⟩, ⟨"B", "P", 0⟩]
        (itemGrade [⟨"A", "P", 10⟩, ⟨"A", "Q", 10⟩, ⟨"B", "P", 0⟩] fun _ => 1)
        "A" = .fin (25/4)) := by
  have h1 : ([⟨3, 1, 1⟩, ⟨0, 2, 3⟩] : List UserMsg) ≠ [] := by simp
  have h2 : userItems [⟨"A", "P", 10⟩, ⟨"A", "Q", 10⟩, ⟨"B", "P", 0⟩] "A" ≠ [] := by
    simp [userItems, List.filter]
  refine ⟨⟨h1, ?_⟩, h2, ?_⟩
  · rw [C2_user_variance_amended.1 1 [⟨3, 1, 1⟩, ⟨0, 2, 3⟩] h1]
    norm_num
  · rw [C2_user_variance_amended.2 _
      (itemGrade [⟨"A", "P", 10⟩, ⟨"A", "Q", 10⟩, ⟨"B", "P", 0⟩] fun _ => 1)
      "A" h2]
    simp [userDiffs, userItems, itemGrade, itemScores, itemUsers, gradeOf,
      npMean, List.filter]
    norm_num

/-- Claim C4 fails on the code: `mark_token_used` does not reject an
already-used token.  On a store holding the already-submitted token `T`
(`is_used = true`, `used_at = 50`), the call reports success and overwrites
`used_at`, `ip_address` and `user_agent`. -/
theorem C4_mark_token_used_counterexample :
    (⟨"T", "A", "B", ["Q1"], 100, "submitted", true, some 50, some "ip0",
        some "ua0"⟩ : TokenRow).is_used = true ∧
    (mark_token_used
      ⟨[⟨"T", "A", "B", ["Q1"], 100, "submitted", true, some 50, some "ip0",
          some "ua0"⟩], [], [], 0⟩
      "T" 99 (some "ip1") (some "ua1")).1 = true ∧
    get_token_info
      (mark_token_used
        ⟨[⟨"T", "A", "B", ["Q1"], 100, "submitted", true, some 50, some "ip0",
            some "ua0"⟩], [], [], 0⟩
        "T" 99 (some "ip1") (some "ua1")).2 "T" =
      some ⟨"T", "A", "B", ["Q1"], 100, "submitted", true, some 99,
        some "ip1", some "ua1"⟩ := by
  refine ⟨rfl, by decide, by decide⟩

/-- Claim C4, amended: `mark_token_used` succeeds exactly when a row with the
token exists and then unconditionally rewrites every matching row to
`is_used = true`, `status = 'submitted'`, fresh `used_at`, `ip_address`,
`user_agent` — also when the token was already used; rows with other tokens
are untouched, and a missing token leaves the store unchanged
(the claim's `NotFound` case). -/
theorem C4_mark_token_used_amended (db : DBState) (t : String) (now : ℤ)
    (ip ua : Option String) :
    ((mark_token_used db t now ip ua).1 = true ↔ ∃ r ∈ db.tokens, r.token = t) ∧
    ((mark_token_used db t now ip ua).1 = false →
      (mark_token_used db t now ip ua).2 = db) ∧
    (∀ r ∈ db.tokens, r.token = t →
      { r with is_used := true, status := "submitted", used_at := some now,
               ip_address := ip, user_agent := ua } ∈
        (mark_token_used db t now ip ua).2.tokens) ∧
    (∀ r ∈ db.tokens, r.token ≠ t →
      r ∈ (mark_token_used db t now ip ua).2.tokens) := by
  refine ⟨?_, ?_, ?_, ?_⟩
  · show (db.tokens.any fun r => r.token = t) = true ↔ _
    simp [List.any_eq_true]
  · intro h
    show ({ db with tokens := _ } : DBState) = db
    have h' : (db.tokens.any fun r => r.token = t) = false := h
    have hne : ∀ r ∈ db.tokens, ¬ (r.token = t) := by
      simpa [List.any_eq_false] using h'
    have hpt : ∀ r ∈ db.tokens, (fun r =>
        if r.token = t then
          ({ r with is_used := true, status := "submitted",
                    used_at := some now, ip_address := ip,
                    user_agent := ua } : TokenRow)
        else r) r = id r := fun r hr => by
      simp [hne r hr]
    have : db.tokens.map (fun r =>
        if r.token = t then
          { r with is_used := true, status := "submitted", used_at := some now,
                   ip_address := ip, user_agent := ua }
        else r) = db.tokens := by
      rw [List.map_congr_left hpt, List.map_id]
    rw [this]
  · intro r hr hteq
    refine List.mem_map.2 ⟨r, hr, ?_⟩
    rw [if_pos hteq]
  · intro r hr hne
    refine List.mem_map.2 ⟨r, hr, ?_⟩
    rw [if_neg hne]

/-- Witness for C4's amended statement on a one-token store. -/
theorem C4_mark_token_used_amended_witness :
    ((mark_token_used
        ⟨[⟨"T", "A", "B", ["Q1"], 100, "pending", false, none, none, none⟩],
          [], [], 0⟩ "T" 7 none none).1 = true ↔
      ∃ r ∈ [(⟨"T", "A", "B", ["Q1"], 100, "pending", false, none, none,
          none⟩ : TokenRow)], r.token = "T") ∧
    (⟨"T", "A", "B", ["Q1"], 100, "submitted", true, some 7, none, none⟩ :
        TokenRow) ∈
      (mark_token_used
        ⟨[⟨"T", "A", "B", ["Q1"], 100, "pending", false, none, none, none⟩],
          [], [], 0⟩ "T" 7 none none).2.tokens := by
  have h := C4_mark_token_used_amended
    ⟨[⟨"T", "A", "B", ["Q1"], 100, "pending", false, none, none, none⟩],
      [], [], 0⟩ "T" 7 none none
  exact ⟨h.1,
    h.2.2.1 ⟨"T", "A", "B", ["Q1"], 100, "pending", false, none, none, none⟩
      (by decide) rfl⟩

/-- Claim C9 fails on the code: with token `t2` already stored,
`save_tokens_batch [t1, t2']` (where `t2'` reuses the string `"t2"`) reports
`(1, 1)` and leaves `t1` persisted while `t2'` is not — a strict non-empty
subset of the batch persists, nothing is rolled back. -/
theorem C9_save_tokens_batch_counterexample :
    save_tokens_batch
      ⟨[⟨"t2", "A", "B", ["Q1"], 100, "pending", false, none, none, none⟩],
        [], [], 0⟩
      [⟨"t1", "C", "D", ["Q1"], 100, "pending", false, none, none, none⟩,
       ⟨"t2", "E", "F", ["Q1"], 100, "pending", false, none, none, none⟩] =
      ((1, 1),
       ⟨[⟨"t2", "A", "B", ["Q1"], 100, "pending", false, none, none, none⟩,
         ⟨"t1", "C", "D", ["Q1"], 100, "pending", false, none, none, none⟩],
        [], [], 0⟩) ∧
    (⟨"t1", "C", "D", ["Q1"], 100, "pending", false, none, none, none⟩ :
        TokenRow) ∈
      (save_tokens_batch
        ⟨[⟨"t2", "A", "B", ["Q1"], 100, "pending", false, none, none, none⟩],
          [], [], 0⟩
        [⟨"t1", "C", "D", ["Q1"], 100, "pending", false, none, none, none⟩,
         ⟨"t2", "E", "F", ["Q1"], 100, "pending", false, none, none,
           none⟩]).2.tokens ∧
    (⟨"t2", "E", "F", ["Q1"], 100, "pending", false, none, none, none⟩ :
        TokenRow) ∉
      (save_tokens_batch
        ⟨[⟨"t2", "A", "B", ["Q1"], 100, "pending", false, none, none, none⟩],
          [], [], 0⟩
        [⟨"t1", "C", "D", ["Q1"], 100, "pending", false, none, none, none⟩,
         ⟨"t2", "E", "F", ["Q1"], 100, "pending", false, none, none,
           none⟩]).2.tokens := by
  refine ⟨by decide, by decide, by decide⟩

/-- Each `save_token` call only ever appends, so a batch never removes
existing rows. -/
theorem save_tokens_batch_extends (db : DBState) (ts : List TokenRow) :
    ∃ new, (save_tokens_batch db ts).2.tokens = db.tokens ++ new := by
  induction ts generalizing db with
  | nil => exact ⟨[], by simp [save_tokens_batch]⟩
  | cons td rest ih =>
    rw [save_tokens_batch]
    by_cases h : db.tokens.any (fun r => r.token = td.token)
    · obtain ⟨new, hnew⟩ := ih db
      exact ⟨new, by simpa [save_token, h] using hnew⟩
    · obtain ⟨new, hnew⟩ := ih { db with tokens := db.tokens ++ [td] }
      refine ⟨td :: new, ?_⟩
      simp only [save_token, h]
      simpa [save_token, h] using hnew

/-- Claim C9, amended: `save_tokens_batch` runs one transaction per token:
the reported counts always sum to the batch size, previously stored rows are
never rolled back, and every batch token whose token string conflicts with
nothing already stored and with no other batch element is persisted — so a
conflict in the middle of a batch leaves exactly the non-conflicting part
persisted. -/
theorem C9_save_tokens_batch_amended (db : DBState) (ts : List TokenRow) :
    ((save_tokens_batch db ts).1.1 + (save_tokens_batch db ts).1.2 =
      ts.length) ∧
    (∃ new, (save_tokens_batch db ts).2.tokens = db.tokens ++ new) ∧
    ((ts.map (·.token)).Nodup → ∀ td ∈ ts,
      (∀ r ∈ db.tokens, r.token ≠ td.token) →
      td ∈ (save_tokens_batch db ts).2.tokens) := by
  refine ⟨?_, save_tokens_batch_extends db ts, ?_⟩
  · induction ts generalizing db with
    | nil => rfl
    | cons td rest ih =>
      rw [save_tokens_batch]
      by_cases h : (save_token db td).1
      · simp only [h, if_pos]
        have := ih (save_token db td).2
        simp only [List.length_cons]
        omega
      · simp only [h, if_neg, Bool.false_eq_true, not_false_iff]
        have := ih (save_token db td).2
        simp only [List.length_cons]
        omega
  · induction ts generalizing db with
    | nil => intro _ td htd; exact absurd htd (List.not_mem_nil td)
    | cons hd rest ih =>
      intro hnd td htd hfresh
      have hndrest : (rest.map (·.token)).Nodup := by
        rw [List.map_cons, List.nodup_cons] at hnd
        exact hnd.2
      have hhd : hd.token ∉ rest.map (·.token) := by
        rw [List.map_cons, List.nodup_cons] at hnd
        exact hnd.1
      show td ∈ (save_tokens_batch (save_token db hd).2 rest).2.tokens
      rcases List.mem_cons.1 htd with rfl | hmem
      · have hany : (db.tokens.any fun r => r.token = td.token) = false := by
          simp only [List.any_eq_false, decide_eq_true_eq]
          exact fun r hr => hfresh r hr ∘ Eq.symm ∘ Eq.symm
        have hdb : (save_token db td).2.tokens = db.tokens ++ [td] := by
          simp [save_token, hany]
        obtain ⟨new, hnew⟩ := save_tokens_batch_extends (save_token db td).2 rest
        rw [hnew, hdb]
        simp
      · refine ih (save_token db hd).2 hndrest td hmem ?_
        intro r hr
        by_cases h : db.tokens.any fun r0 => r0.token = hd.token
        · have : (save_token db hd).2.tokens = db.tokens := by
            simp [save_token, h]
          rw [this] at hr
          exact hfresh r hr
        · have : (save_token db hd).2.tokens = db.tokens ++ [hd] := by
            simp only [save_token]
            rw [if_neg]
            simpa using h
          rw [this, List.mem_append] at hr
          rcases hr with hr | hr
          · exact hfresh r hr
          · rw [List.mem_singleton] at hr
            subst hr
            intro he
            exact hhd (he ▸ List.mem_map_of_mem (·.token) hmem)

/-- Witness for C9's amended statement: an empty store and a two-token batch
with distinct fresh token strings. -/
theorem C9_save_tokens_batch_amended_witness :
    (([⟨"ta", "C", "D", ["Q1"], 100, "pending", false, none, none, none⟩,
       ⟨"tb", "E", "F", ["Q1"], 100, "pending", false, none, none, none⟩] :
        List TokenRow).map (·.token)).Nodup ∧
    (save_tokens_batch ⟨[], [], [], 0⟩
        [⟨"ta", "C", "D", ["Q1"], 100, "pending", false, none, none, none⟩,
         ⟨"tb", "E", "F", ["Q1"], 100, "pending", false, none, none,
           none⟩]).1.1 +
      (save_tokens_batch ⟨[], [], [], 0⟩
        [⟨"ta", "C", "D", ["Q1"], 100, "pending", false, none, none, none⟩,
         ⟨"tb", "E", "F", ["Q1"], 100, "pending", false, none, none,
           none⟩]).1.2 = 2 ∧
    (⟨"ta", "C", "D", ["Q1"], 100, "pending", false, none, none, none⟩ :
        TokenRow) ∈
      (save_tokens_batch ⟨[], [], [], 0⟩
        [⟨"ta", "C", "D", ["Q1"], 100, "pending", false, none, none, none⟩,
         ⟨"tb", "E", "F", ["Q1"], 100, "pending", false, none, none,
           none⟩]).2.tokens := by
  have h := C9_save_tokens_batch_amended ⟨[], [], [], 0⟩
    [⟨"ta", "C", "D", ["Q1"], 100, "pending", false, none, none, none⟩,
     ⟨"tb", "E", "F", ["Q1"], 100, "pending", false, none, none, none⟩]
  refine ⟨by decide, h.1, ?_⟩
  exact h.2.2 (by decide)
    ⟨"ta", "C", "D", ["Q1"], 100, "pending", false, none, none, none⟩
    (by decide) (by decide)

/-- Counting hits of a shifted predicate over `range (n+1)`. -/
theorem countP_range_shift (P : ℕ → Bool) (n idx : ℕ) :
    (List.range (n + 1)).countP (fun i => P (idx + i)) =
      (if P idx then 1 else 0) +
        (List.range n).countP (fun i => P (idx + 1 + i)) := by
  induction n with
  | zero => simp [List.range_succ, List.countP_cons]
  | succ n ih =>
    rw [List.range_succ, List.countP_append, ih, List.range_succ,
      List.countP_append]
    simp only [List.countP_cons, List.countP_nil]
    have : idx + (n + 1) = idx + 1 + n := by omega
    rw [this]
    omega

/-- The insertion loop: the ids list has one entry per body element, the
submission table grows by exactly the successful inserts, and the tokens and
logs tables are untouched. -/
theorem submitLoop_stats (insertOk : ℕ → Bool) (t e g : String)
    (ip ua : Option String) :
    ∀ (subs : List BodySub) (db : DBState) (idx : ℕ),
    (submitLoop db insertOk idx t e g ip ua subs).1.length = subs.length ∧
    (submitLoop db insertOk idx t e g ip ua subs).2.submissions.length =
      db.submissions.length +
        (List.range subs.length).countP (fun i => insertOk (idx + i)) ∧
    (submitLoop db insertOk idx t e g ip ua subs).2.tokens = db.tokens ∧
    (submitLoop db insertOk idx t e g ip ua subs).2.logs = db.logs := by
  intro subs
  induction subs with
  | nil => intro db idx; simp [submitLoop]
  | cons s rest ih =>
    intro db idx
    have hrec := ih (save_submission db (insertOk idx) t e g
      s.question_id s.score s.comment ip ua).2 (idx + 1)
    refine ⟨by simpa [submitLoop] using hrec.1, ?_, ?_, ?_⟩
    · show (submitLoop _ insertOk (idx + 1) t e g ip ua rest).2.submissions.length = _
      rw [hrec.2.1]
      rw [List.length_cons, countP_range_shift]
      by_cases h : insertOk idx
      · simp [save_submission, h]
        omega
      · simp [save_submission, h]
    · show (submitLoop _ insertOk (idx + 1) t e g ip ua rest).2.tokens = _
      rw [hrec.2.2.1]
      by_cases h : insertOk idx <;> simp [save_submission, h]
    · show (submitLoop _ insertOk (idx + 1) t e g ip ua rest).2.logs = _
      rw [hrec.2.2.2]
      by_cases h : insertOk idx <;> simp [save_submission, h]

/-- After `mark_token_used`, every row carrying the token is marked used. -/
theorem mark_token_used_marks (db : DBState) (t : String) (now : ℤ)
    (ip ua : Option String) :
    ∀ row ∈ (mark_token_used db t now ip ua).2.tokens, row.token = t →
      row.is_used = true := by
  intro row hrow hteq
  obtain ⟨r, hr, himg⟩ := List.mem_map.1 hrow
  by_cases h : r.token = t
  · rw [if_pos h] at himg
    rw [← himg]
  · rw [if_neg h] at himg
    exact absurd (himg ▸ hteq) h

/-- The insertion loop with no failing insert appends exactly the client's
rows, verbatim, and advances the id counter. -/
theorem submitLoop_all_ok (t e g : String) (ip ua : Option String) :
    ∀ (subs : List BodySub) (db : DBState) (idx : ℕ),
    (submitLoop db (fun _ => true) idx t e g ip ua subs).2.submissions =
      db.submissions ++ expectedRows db.nextId t e g ip ua subs ∧
    (submitLoop db (fun _ => true) idx t e g ip ua subs).2.nextId =
      db.nextId + subs.length := by
  intro subs
  induction subs with
  | nil => intro db idx; simp [submitLoop, expectedRows]
  | cons s rest ih =>
    intro db idx
    have hrec := ih (save_submission db true t e g
      s.question_id s.score s.comment ip ua).2 (idx + 1)
    constructor
    · show (submitLoop _ _ (idx + 1) t e g ip ua rest).2.submissions = _
      rw [hrec.1]
      simp [save_submission, expectedRows]
    · show (submitLoop _ _ (idx + 1) t e g ip ua rest).2.nextId = _
      rw [hrec.2]
      simp [save_submission]
      omega

/-- Every row present after the insertion loop is an old row or carries the
evaluator, target and token the loop was invoked with. -/
theorem submitLoop_rows (insertOk : ℕ → Bool) (t e g : String)
    (ip ua : Option String) :
    ∀ (subs : List BodySub) (db : DBState) (idx : ℕ),
    ∀ row ∈ (submitLoop db insertOk idx t e g ip ua subs).2.submissions,
      row ∈ db.submissions ∨
        (row.token = t ∧ row.evaluator_id = e ∧ row.target_id = g) := by
  intro subs
  induction subs with
  | nil => intro db idx row hrow; exact Or.inl hrow
  | cons s rest ih =>
    intro db idx row hrow
    have hrec := ih (save_submission db (insertOk idx) t e g
      s.question_id s.score s.comment ip ua).2 (idx + 1) row hrow
    rcases hrec with hold | hnew
    · by_cases h : insertOk idx
      · rw [save_submission] at hold
        simp only [h, if_pos] at hold
        rcases List.mem_append.1 hold with h1 | h1
        · exact Or.inl h1
        · rw [List.mem_singleton] at h1
          subst h1
          exact Or.inr ⟨rfl, rfl, rfl⟩
      · rw [save_submission] at hold
        simp only [h, Bool.false_eq_true, if_neg, not_false_iff] at hold
        exact Or.inl hold
    · exact Or.inr hnew

/-- The insertion loop reads only `question_id`, `score` and `comment` of a
body element: overriding the client-supplied `evaluator_id` / `target_id`
fields changes nothing. -/
theorem submitLoop_ignores_body_ids (insertOk : ℕ → Bool) (t e g : String)
    (ip ua : Option String) (evs tgs : Option String) :
    ∀ (subs : List BodySub) (db : DBState) (idx : ℕ),
    submitLoop db insertOk idx t e g ip ua
        (subs.map fun s => { s with evaluator_id := evs, target_id := tgs }) =
      submitLoop db insertOk idx t e g ip ua subs := by
  intro subs
  induction subs with
  | nil => intro db idx; rfl
  | cons s rest ih =>
    intro db idx
    show (_, _) = (_, _)
    rw [ih]

/-- On the valid-pending-token path the handler reduces to: run the insertion
loop with the token row's evaluator and target, mark the token used, log. -/
theorem submit_evaluation_valid_eq (db : DBState) (now : ℤ)
    (ip ua : Option String) (t : String) (info : TokenRow)
    (subs : List BodySub) (insertOk : ℕ → Bool)
    (hfind : get_token_info db t = some info) (hused : info.is_used = false)
    (hstat : info.status = "pending") (hexp : ¬ info.expires_at < now)
    (ht : t ≠ "") (hs : subs ≠ []) :
    submit_evaluation db now ip ua (some ⟨some t, some subs⟩) insertOk =
      ⟨200,
       (submitLoop db insertOk 0 t info.evaluator_id info.target_id ip ua
         subs).1,
       log_action
         (mark_token_used
           (submitLoop db insertOk 0 t info.evaluator_id info.target_id ip ua
             subs).2 t now ip ua).2 (some t) "submit" "submitted"⟩ := by
  have hv : validate_token db now t = (true, some info, "") := by
    rw [validate_token, hfind]
    simp [hused, hstat, hexp]
  simp [submit_evaluation, hv, ht, hs, hused]

/-- Claim C3 fails on the code: with a pending two-question token, a request
whose second insert fails (each insert is its own transaction) completes with
HTTP 200, one of the two rows persisted, and the token marked used — not
all-or-nothing. -/
theorem C3_submit_atomicity_counterexample :
    (submit_evaluation
        ⟨[⟨"T", "A", "B", ["Q1", "Q2"], 100, "pending", false, none, none,
            none⟩], [], [], 0⟩ 0 none none
        (some ⟨some "T", some [⟨"Q1", 18, "", none, none⟩,
          ⟨"Q2", 17, "", none, none⟩]⟩) (fun i => i = 0)).status = 200 ∧
    (submit_evaluation
        ⟨[⟨"T", "A", "B", ["Q1", "Q2"], 100, "pending", false, none, none,
            none⟩], [], [], 0⟩ 0 none none
        (some ⟨some "T", some [⟨"Q1", 18, "", none, none⟩,
          ⟨"Q2", 17, "", none, none⟩]⟩) (fun i => i = 0)).submission_ids =
      [some 0, none] ∧
    (submit_evaluation
        ⟨[⟨"T", "A", "B", ["Q1", "Q2"], 100, "pending", false, none, none,
            none⟩], [], [], 0⟩ 0 none none
        (some ⟨some "T", some [⟨"Q1", 18, "", none, none⟩,
          ⟨"Q2", 17, "", none, none⟩]⟩) (fun i => i = 0)).db.submissions =
      [⟨0, "T", "A", "B", "Q1", 18, "", none, none⟩] ∧
    get_token_info
      (submit_evaluation
        ⟨[⟨"T", "A", "B", ["Q1", "Q2"], 100, "pending", false, none, none,
            none⟩], [], [], 0⟩ 0 none none
        (some ⟨some "T", some [⟨"Q1", 18, "", none, none⟩,
          ⟨"Q2", 17, "", none, none⟩]⟩) (fun i => i = 0)).db "T" =
      some ⟨"T", "A", "B", ["Q1", "Q2"], 100, "submitted", true, some 0, none,
        none⟩ := by
  refine ⟨by decide, by decide, by decide, by decide⟩

/-- Claim C3, amended: `/api/submit` runs one transaction per inserted row
and marks the token used afterwards regardless: for a valid pending token the
response is 200 with one id slot per body element, the submissions table
grows by exactly the number of non-failing inserts (a strict subset when some
insert fails), and the token rows are marked used either way. -/
theorem C3_submit_per_row_transactions (db : DBState) (now : ℤ)
    (ip ua : Option String) (t : String) (info : TokenRow)
    (subs : List BodySub) (insertOk : ℕ → Bool)
    (hfind : get_token_info db t = some info) (hused : info.is_used = false)
    (hstat : info.status = "pending") (hexp : ¬ info.expires_at < now)
    (ht : t ≠ "") (hs : subs ≠ []) :
    (submit_evaluation db now ip ua (some ⟨some t, some subs⟩)
        insertOk).status = 200 ∧
    (submit_evaluation db now ip ua (some ⟨some t, some subs⟩)
        insertOk).submission_ids.length = subs.length ∧
    (submit_evaluation db now ip ua (some ⟨some t, some subs⟩)
        insertOk).db.submissions.length =
      db.submissions.length +
        (List.range subs.length).countP (fun i => insertOk i) ∧
    (∀ row ∈ (submit_evaluation db now ip ua (some ⟨some t, some subs⟩)
        insertOk).db.tokens, row.token = t → row.is_used = true) := by
  rw [submit_evaluation_valid_eq db now ip ua t info subs insertOk hfind
    hused hstat hexp ht hs]
  have hst := submitLoop_stats insertOk t info.evaluator_id info.target_id
    ip ua subs db 0
  refine ⟨rfl, hst.1, ?_, ?_⟩
  · show (submitLoop db insertOk 0 t info.evaluator_id info.target_id ip ua
        subs).2.submissions.length = _
    rw [hst.2.1]
    congr 1
    exact List.countP_congr fun i _ => by rw [Nat.zero_add]
  · intro row hrow
    exact mark_token_used_marks _ t now ip ua row hrow

/-- Witness for C3's amended statement: two questions, second insert fails,
one row persists and the token is marked. -/
theorem C3_submit_per_row_transactions_witness :
    (get_token_info
        ⟨[⟨"T", "A", "B", ["Q1", "Q2"], 100, "pending", false, none, none,
            none⟩], [], [], 0⟩ "T" =
      some ⟨"T", "A", "B", ["Q1", "Q2"], 100, "pending", false, none, none,
        none⟩) ∧
    (submit_evaluation
        ⟨[⟨"T", "A", "B", ["Q1", "Q2"], 100, "pending", false, none, none,
            none⟩], [], [], 0⟩ 0 none none
        (some ⟨some "T", some [⟨"Q1", 18, "", none, none⟩,
          ⟨"Q2", 17, "", none, none⟩]⟩)
        (fun i => i = 0)).db.submissions.length =
      0 + (List.range 2).countP (fun i => i = 0) := by
  refine ⟨by decide, ?_⟩
  have h := C3_submit_per_row_transactions
    ⟨[⟨"T", "A", "B", ["Q1", "Q2"], 100, "pending", false, none, none,
        none⟩], [], [], 0⟩ 0 none none "T"
    ⟨"T", "A", "B", ["Q1", "Q2"], 100, "pending", false, none, none, none⟩
    [⟨"Q1", 18, "", none, none⟩, ⟨"Q2", 17, "", none, none⟩]
    (fun i => i = 0) (by decide) rfl rfl (by decide) (by decide) (by decide)
  exact h.2.2.1

/-- Claim C5 fails on the code: a body whose question set does not match the
token's questions and whose score is far outside `[0, S_max]` is accepted:
HTTP 200, the row is persisted with `question_id = "Q9"` and `score = 999`,
and the token is consumed. -/
theorem C5_validation_counterexample :
    (submit_evaluation
        ⟨[⟨"T", "A", "B", ["Q1", "Q2", "Q3", "Q4", "Q5"], 100, "pending",
            false, none, none, none⟩], [], [], 0⟩ 0 none none
        (some ⟨some "T", some [⟨"Q9", 999, "", none, none⟩]⟩)
        (fun _ => true)).status = 200 ∧
    (submit_evaluation
        ⟨[⟨"T", "A", "B", ["Q1", "Q2", "Q3", "Q4", "Q5"], 100, "pending",
            false, none, none, none⟩], [], [], 0⟩ 0 none none
        (some ⟨some "T", some [⟨"Q9", 999, "", none, none⟩]⟩)
        (fun _ => true)).db.submissions =
      [⟨0, "T", "A", "B", "Q9", 999, "", none, none⟩] ∧
    get_token_info
      (submit_evaluation
        ⟨[⟨"T", "A", "B", ["Q1", "Q2", "Q3", "Q4", "Q5"], 100, "pending",
            false, none, none, none⟩], [], [], 0⟩ 0 none none
        (some ⟨some "T", some [⟨"Q9", 999, "", none, none⟩]⟩)
        (fun _ => true)).db "T" =
      some ⟨"T", "A", "B", ["Q1", "Q2", "Q3", "Q4", "Q5"], 100, "submitted",
        true, some 0, none, none⟩ := by
  refine ⟨by decide, by decide, by decide⟩

/-- Claim C5, amended: before persisting, the handler checks only that the
body parses, that `token` and a non-empty `submissions` list are present and
that the token exists, is unused, pending and unexpired; the `question_id`s,
`score`s and `comment`s themselves are not validated — every body element is
persisted verbatim for any valid pending token. -/
theorem C5_no_body_validation (db : DBState) (now : ℤ) (ip ua : Option String)
    (t : String) (info : TokenRow) (subs : List BodySub)
    (hfind : get_token_info db t = some info) (hused : info.is_used = false)
    (hstat : info.status = "pending") (hexp : ¬ info.expires_at < now)
    (ht : t ≠ "") (hs : subs ≠ []) :
    (submit_evaluation db now ip ua (some ⟨some t, some subs⟩)
        (fun _ => true)).status = 200 ∧
    (submit_evaluation db now ip ua (some ⟨some t, some subs⟩)
        (fun _ => true)).db.submissions =
      db.submissions ++
        expectedRows db.nextId t info.evaluator_id info.target_id ip ua
          subs := by
  rw [submit_evaluation_valid_eq db now ip ua t info subs (fun _ => true)
    hfind hused hstat hexp ht hs]
  refine ⟨rfl, ?_⟩
  show (submitLoop db (fun _ => true) 0 t info.evaluator_id info.target_id
      ip ua subs).2.submissions = _
  exact (submitLoop_all_ok t info.evaluator_id info.target_id ip ua subs
    db 0).1

/-- Witness for C5's amended statement: the out-of-range row `("Q9", 999)` is
persisted verbatim. -/
theorem C5_no_body_validation_witness :
    (submit_evaluation
        ⟨[⟨"T", "A", "B", ["Q1", "Q2", "Q3", "Q4", "Q5"], 100, "pending",
            false, none, none, none⟩], [], [], 0⟩ 0 none none
        (some ⟨some "T", some [⟨"Q9", 999, "hi", none, none⟩]⟩)
        (fun _ => true)).db.submissions =
      [] ++ expectedRows 0 "T" "A" "B" none none
        [⟨"Q9", 999, "hi", none, none⟩] := by
  have h := C5_no_body_validation
    ⟨[⟨"T", "A", "B", ["Q1", "Q2", "Q3", "Q4", "Q5"], 100, "pending", false,
        none, none, none⟩], [], [], 0⟩ 0 none none "T"
    ⟨"T", "A", "B", ["Q1", "Q2", "Q3", "Q4", "Q5"], 100, "pending", false,
      none, none, none⟩
    [⟨"Q9", 999, "hi", none, none⟩] (by decide) rfl rfl (by decide)
    (by decide) (by decide)
  exact h.2

/-- `validate_token` hands back exactly the stored row as its info field. -/
theorem validate_token_info (db : DBState) (now : ℤ) (t : String) :
    (validate_token db now t).2.1 = get_token_info db t := by
  rcases hg : get_token_info db t with _ | info
  · rw [validate_token, hg]
  · rw [validate_token, hg]
    show (if info.is_used = true then
        ((false : Bool), some info, "Token already used")
      else if info.status ≠ "pending" then
        (false, some info, "Token status abnormal")
      else if info.expires_at < now then (false, some info, "Token expired")
      else (true, some info, "")).2.1 = some info
    split_ifs <;> rfl

/-- The handler on a parsed body with both fields present, written as the
if/match cascade it zeta-reduces to. -/
theorem submit_evaluation_some_eq (db : DBState) (now : ℤ)
    (ip ua : Option String) (t : String) (subs : List BodySub)
    (insertOk : ℕ → Bool) :
    submit_evaluation db now ip ua (some ⟨some t, some subs⟩) insertOk =
      (if t = "" ∨ subs = [] then (⟨400, [], db⟩ : SubmitResult)
       else
         match (validate_token db now t).2.1 with
         | none => ⟨403, [], db⟩
         | some info =>
           if ¬ (validate_token db now t).1 then ⟨403, [], db⟩
           else if info.is_used then ⟨400, [], db⟩
           else
             ⟨200,
              (submitLoop db insertOk 0 t info.evaluator_id info.target_id
                ip ua subs).1,
              log_action
                (mark_token_used
                  (submitLoop db insertOk 0 t info.evaluator_id
                    info.target_id ip ua subs).2 t now ip ua).2
                (some t) "submit" "submitted"⟩) := rfl

/-- The handler either leaves the submissions table alone or writes it
through the insertion loop keyed by the stored token row. -/
theorem submit_evaluation_db_cases (db : DBState) (now : ℤ)
    (ip ua : Option String) (t : String) (subs : List BodySub)
    (insertOk : ℕ → Bool) :
    (submit_evaluation db now ip ua (some ⟨some t, some subs⟩)
        insertOk).db.submissions = db.submissions ∨
    ∃ info, get_token_info db t = some info ∧
      (submit_evaluation db now ip ua (some ⟨some t, some subs⟩)
          insertOk).db.submissions =
        (submitLoop db insertOk 0 t info.evaluator_id info.target_id ip ua
          subs).2.submissions := by
  rw [submit_evaluation_some_eq]
  by_cases hc : t = "" ∨ subs = []
  · rw [if_pos hc]; exact Or.inl rfl
  rw [if_neg hc]
  rcases hv : (validate_token db now t).2.1 with _ | info
  · exact Or.inl rfl
  · by_cases hval : (validate_token db now t).1
    · by_cases hu : info.is_used
      · exact Or.inl (by simp [hval, hu])
      · refine Or.inr ⟨info, ?_, ?_⟩
        · rw [← validate_token_info db now t, hv]
        · simp [hval, hu, log_action, mark_token_used]
    · exact Or.inl (by simp [hval])

/-- Claim C10: every row the handler persists carries the `evaluator_id` and
`target_id` stored with the token in the database, and the handler's result
does not depend on any evaluator/target identifiers the client puts in the
body elements. -/
theorem C10_token_binds_evaluator_target (db : DBState) (now : ℤ)
    (ip ua : Option String) (t : String) (info : TokenRow)
    (subs : List BodySub) (insertOk : ℕ → Bool)
    (hfind : get_token_info db t = some info) :
    (∀ row ∈ (submit_evaluation db now ip ua (some ⟨some t, some subs⟩)
        insertOk).db.submissions,
      row ∈ db.submissions ∨
        (row.token = t ∧ row.evaluator_id = info.evaluator_id ∧
          row.target_id = info.target_id)) ∧
    (∀ evs tgs : Option String,
      submit_evaluation db now ip ua
          (some ⟨some t, some (subs.map fun s =>
            { s with evaluator_id := evs, target_id := tgs })⟩) insertOk =
        submit_evaluation db now ip ua (some ⟨some t, some subs⟩) insertOk) := by
  constructor
  · intro row hrow
    rcases submit_evaluation_db_cases db now ip ua t subs insertOk with
      h | ⟨info2, hinfo2, h⟩
    · rw [h] at hrow
      exact Or.inl hrow
    · have heq : info2 = info := by
        rw [hfind] at hinfo2
        exact (Option.some_inj.1 hinfo2).symm
      rw [heq] at h
      rw [h] at hrow
      exact submitLoop_rows insertOk t info.evaluator_id info.target_id
        ip ua subs db 0 row hrow
  · intro evs tgs
    rw [submit_evaluation_some_eq, submit_evaluation_some_eq]
    by_cases hse : subs = []
    · subst hse
      rfl
    · by_cases hte : t = ""
      · rw [if_pos (Or.inl hte), if_pos (Or.inl hte)]
      · rw [if_neg (by simp [hte, hse]), if_neg (by simp [hte, hse])]
        rcases hv : (validate_token db now t).2.1 with _ | i
        · rfl
        · by_cases hval : (validate_token db now t).1
          · by_cases hu : i.is_used
            · simp [hval, hu]
            · simp [hval, hu, submitLoop_ignores_body_ids]
          · simp [hval]

/-- Witness for C10: a client-supplied evaluator/target pair in the body is
ignored; the stored pair `("A", "B")` is what every inserted row carries. -/
theorem C10_token_binds_evaluator_target_witness :
    (get_token_info
        ⟨[⟨"T", "A", "B", ["Q1"], 100, "pending", false, none, none, none⟩],
          [], [], 0⟩ "T" =
      some ⟨"T", "A", "B", ["Q1"], 100, "pending", false, none, none,
        none⟩) ∧
    submit_evaluation
        ⟨[⟨"T", "A", "B", ["Q1"], 100, "pending", false, none, none, none⟩],
          [], [], 0⟩ 0 none none
        (some ⟨some "T", some [⟨"Q1", 18, "", some "EVIL", some "MARK"⟩]⟩)
        (fun _ => true) =
      submit_evaluation
        ⟨[⟨"T", "A", "B", ["Q1"], 100, "pending", false, none, none, none⟩],
          [], [], 0⟩ 0 none none
        (some ⟨some "T", some [⟨"Q1", 18, "", none, none⟩]⟩)
        (fun _ => true) := by
  refine ⟨by decide, ?_⟩
  have h := (C10_token_binds_evaluator_target
    ⟨[⟨"T", "A", "B", ["Q1"], 100, "pending", false, none, none, none⟩],
      [], [], 0⟩ 0 none none "T"
    ⟨"T", "A", "B", ["Q1"], 100, "pending", false, none, none, none⟩
    [⟨"Q1", 18, "", none, none⟩] (fun _ => true) (by decide)).2
    (some "EVIL") (some "MARK")
  exact h

/-- Swapping the head with the element at position `m` permutes a list. -/
theorem headSwap_perm {α : Type} :
    ∀ (t : List α) (m : ℕ) (x vb : α), t.get? m = some vb →
      List.Perm (vb :: t.set m x) (x :: t) := by
  intro t
  induction t with
  | nil => intro m x vb h; cases h
  | cons y t' ih =>
    intro m x vb h
    match m with
    | 0 =>
      rw [List.get?_cons_zero] at h
      have h2 : vb = y := by injection h with h3; exact h3.symm
      subst h2
      exact List.Perm.swap x vb t'
    | k + 1 =>
      rw [List.get?_cons_succ] at h
      show List.Perm (vb :: y :: t'.set k x) (x :: y :: t')
      exact (List.Perm.swap y vb _).trans
        ((List.Perm.cons y (ih k x vb h)).trans (List.Perm.swap x y t'))

/-- `listSwap` permutes a list. -/
theorem listSwap_perm {α : Type} :
    ∀ (xs : List α) (a b : ℕ), List.Perm (listSwap xs a b) xs := by
  intro xs
  induction xs with
  | nil => intro a b; exact List.Perm.refl _
  | cons x t ih =>
    intro a b
    match a, b with
    | 0, 0 => exact List.Perm.refl _
    | 0, m + 1 =>
      rcases ht : t.get? m with _ | vb
      · show List.Perm (listSwap (x :: t) 0 (m + 1)) (x :: t)
        rw [listSwap, List.get?_cons_succ, ht]
        exact List.Perm.refl _
      · show List.Perm (listSwap (x :: t) 0 (m + 1)) (x :: t)
        rw [listSwap, List.get?_cons_succ, ht]
        exact headSwap_perm t m x vb ht
    | m + 1, 0 =>
      rcases ht : t.get? m with _ | va
      · show List.Perm (listSwap (x :: t) (m + 1) 0) (x :: t)
        rw [listSwap, List.get?_cons_succ, ht]
      · show List.Perm (listSwap (x :: t) (m + 1) 0) (x :: t)
        rw [listSwap, List.get?_cons_succ, ht]
        exact headSwap_perm t m x va ht
    | ma + 1, mb + 1 =>
      have hstep : listSwap (x :: t) (ma + 1) (mb + 1) = x :: listSwap t ma mb := by
        rw [listSwap, listSwap, List.get?_cons_succ, List.get?_cons_succ]
        rcases t.get? ma with _ | va <;> rcases t.get? mb with _ | vb <;> rfl
      rw [hstep]
      exact List.Perm.cons x (ih ma mb)

/-- `random.shuffle`'s loop permutes the list. -/
theorem pyShuffleGo_perm {α : Type} :
    ∀ (i : ℕ) (xs : List α) (st : MTState),
      List.Perm (pyShuffleGo i xs st).1 xs := by
  intro i
  induction i with
  | zero => intro xs st; exact List.Perm.refl _
  | succ i ih =>
    intro xs st
    exact (ih _ _).trans (listSwap_perm xs (i + 1) _)

/-- `random.shuffle` permutes the list. -/
theorem pyShuffle_perm {α : Type} (xs : List α) (st : MTState) :
    List.Perm (pyShuffle xs st).1 xs :=
  pyShuffleGo_perm _ xs st

/-- Walking `d` steps around a ring of size `n` from `i` never returns to `i`
for `1 ≤ d < n`. -/
theorem ring_index_ne (n i d : ℕ) (hi : i < n) (hd1 : 1 ≤ d) (hdn : d < n) :
    (i + d) % n ≠ i := by
  intro h
  rcases Nat.lt_or_ge (i + d) n with hlt | hge
  · rw [Nat.mod_eq_of_lt hlt] at h
    omega
  · have h2n : i + d - n < n := by omega
    rw [Nat.mod_eq_sub_mod hge, Nat.mod_eq_of_lt h2n] at h
    omega

/-- In a duplicate-free list, `getD` at distinct in-range indices gives
distinct elements. -/
theorem getD_inj_of_nodup (order : List String) (hnd : order.Nodup)
    {i j : ℕ} (hi : i < order.length) (hj : j < order.length)
    (he : order.getD i "" = order.getD j "") : i = j := by
  rw [List.getD_eq_getElem order "" hi, List.getD_eq_getElem order "" hj] at he
  exact List.Nodup.getElem_inj_iff hnd |>.1 he

/-- Peeling the first position off a ring window. -/
theorem window_shift (order : List String) (i : ℕ) (r offset : ℕ) :
    (List.range (r + 1)).map
        (fun m => order.getD ((i + offset + m) % order.length) "") =
      order.getD ((i + offset) % order.length) "" ::
        (List.range r).map
          (fun m => order.getD ((i + (offset + 1) + m) % order.length) "") := by
  rw [List.range_succ_eq_map, List.map_cons, List.map_map, List.cons_eq_cons]
  refine ⟨?_, ?_⟩
  · show order.getD ((i + offset + 0) % order.length) "" = _
    rw [Nat.add_zero]
  · apply List.map_congr_left
    intro a _
    show order.getD ((i + offset + (a + 1)) % order.length) "" =
      order.getD ((i + (offset + 1) + a) % order.length) ""
    have harith : i + offset + (a + 1) = i + (offset + 1) + a := by omega
    rw [harith]

/-- The inner assignment loop, characterized: starting from an offset and an
accumulator still needing `r` targets that fit before the ring wraps, it
returns the accumulator followed by the next `r` ring positions. -/
theorem ringLoop_spec (order : List String) (hnd : order.Nodup) (i k : ℕ)
    (hi : i < order.length) :
    ∀ (r offset : ℕ) (acc : List String), acc.length + r = k →
      1 ≤ offset → offset + r ≤ order.length →
      ringLoop order (order.getD i "") i k order.length false offset acc =
        acc ++ (List.range r).map
          (fun m => order.getD ((i + offset + m) % order.length) "") := by
  intro r
  induction r with
  | zero =>
    intro offset acc hlen _ _
    rw [ringLoop, if_neg (by omega)]
    simp
  | succ r ih =>
    intro offset acc hlen hoff hfit
    have hn : 0 < order.length := by omega
    have hoffn : offset < order.length := by omega
    have htgt : (i + offset) % order.length ≠ i :=
      ring_index_ne order.length i offset hi hoff hoffn
    have hne : order.getD ((i + offset) % order.length) "" ≠
        order.getD i "" := by
      intro he
      exact htgt (getD_inj_of_nodup order hnd (Nat.mod_lt _ hn) hi he)
    rw [ringLoop, if_pos (by omega), if_pos (Or.inr hne),
      if_neg (by omega), ih (offset + 1) _ (by simp; omega) (by omega)
        (by omega)]
    rw [window_shift order i r offset]
    simp

/-- The assigned papers of the evaluator at position `i`: the next `k` ring
positions, when `k` fits strictly inside the ring. -/
theorem ringTargets_spec (order : List String) (hnd : order.Nodup) (i k : ℕ)
    (hi : i < order.length) (hk : k + 1 ≤ order.length) :
    ringTargets order k false i =
      (List.range k).map
        (fun m => order.getD ((i + 1 + m) % order.length) "") := by
  have h := ringLoop_spec order hnd i k hi k 1 [] (by simp) (le_refl 1)
    (by omega)
  simpa [ringTargets] using h

/-- The unique ring step from `i` that lands on `j`. -/
theorem ring_solution (n i j : ℕ) (hi : i < n) (hj : j < n) :
    (i + 1 + (j + n - 1 - i) % n) % n = j := by
  set x := j + n - 1 - i with hx
  have hq := Nat.div_add_mod x n
  have h1 : i + 1 + x % n + n * (x / n) = j + n := by omega
  have h2 : (i + 1 + x % n) % n = (i + 1 + x % n + n * (x / n)) % n := by
    rw [Nat.add_mul_mod_self_left]
  rw [h2, h1, Nat.add_mod_right, Nat.mod_eq_of_lt hj]

/-- Ring positions reached by small steps from the same origin are reached by
a unique step. -/
theorem ring_unique (n i m1 m2 : ℕ) (h1 : m1 < n) (h2 : m2 < n)
    (he : (i + 1 + m1) % n = (i + 1 + m2) % n) : m1 = m2 := by
  have hme : Nat.ModEq n (i + 1 + m1) (i + 1 + m2) := he
  have hc : Nat.ModEq n m1 m2 := by
    have ha : Nat.ModEq n ((i + 1) + m1) ((i + 1) + m2) := hme
    exact Nat.ModEq.add_left_cancel' (i + 1) ha
  have := hc
  rw [Nat.ModEq, Nat.mod_eq_of_lt h1, Nat.mod_eq_of_lt h2] at this
  exact this

/-- Counting an element of a mapped list by the preimage predicate. -/
theorem count_map_eq_countP {α β : Type} [DecidableEq α] [DecidableEq β]
    (f : α → β) (t : β) (l : List α) :
    (l.map f).count t = l.countP (fun x => f x = t) := by
  induction l with
  | nil => rfl
  | cons x xs ih => simp [List.count_cons, List.countP_cons, ih]

/-- Counting a fixed value in `range k`. -/
theorem countP_eq_range (m0 : ℕ) :
    ∀ k, (List.range k).countP (fun m => m = m0) =
      if m0 < k then 1 else 0 := by
  intro k
  induction k with
  | zero => simp
  | succ k ih =>
    rw [List.range_succ, List.countP_append, ih]
    simp only [List.countP_cons, List.countP_nil, Nat.zero_add,
      decide_eq_true_eq]
    split_ifs <;> omega

/-- How often the student at ring position `j` occurs among the targets of
the evaluator at position `i`: once if `j` is within the next `k` positions,
else not at all. -/
theorem ringTargets_count (order : List String) (hnd : order.Nodup)
    (i j k : ℕ) (hi : i < order.length) (hj : j < order.length)
    (hk : k + 1 ≤ order.length) :
    (ringTargets order k false i).count (order.getD j "") =
      if (j + order.length - 1 - i) % order.length < k then 1 else 0 := by
  rw [ringTargets_spec order hnd i k hi hk, count_map_eq_countP]
  have hn : 0 < order.length := by omega
  have hm0n : (j + order.length - 1 - i) % order.length < order.length :=
    Nat.mod_lt _ hn
  have hiff : ∀ m, m < order.length →
      ((order.getD ((i + 1 + m) % order.length) "" = order.getD j "") ↔
        m = (j + order.length - 1 - i) % order.length) := by
    intro m hm
    constructor
    · intro he
      have hidx : (i + 1 + m) % order.length = j :=
        getD_inj_of_nodup order hnd (Nat.mod_lt _ hn) hj he
      refine ring_unique order.length i m _ hm hm0n ?_
      rw [hidx, ring_solution order.length i j hi hj]
    · rintro rfl
      rw [ring_solution order.length i j hi hj]
  refine Eq.trans (List.countP_congr ?_)
    (countP_eq_range ((j + order.length - 1 - i) % order.length) k)
  intro m hm
  rw [List.mem_range] at hm
  simp only [decide_eq_true_eq]
  exact hiff m (by omega)

/-- A duplicate-free list of `n` naturals below `n` is a permutation of
`range n`. -/
theorem perm_range_of (l : List ℕ) (n : ℕ) (hnd : l.Nodup)
    (hlen : l.length = n) (hsub : ∀ x ∈ l, x < n) :
    List.Perm l (List.range n) := by
  apply List.perm_of_nodup_nodup_toFinset_eq hnd (List.nodup_range n)
  apply Finset.eq_of_subset_of_card_le
  · intro x hx
    rw [List.mem_toFinset] at hx ⊢
    rw [List.mem_range]
    exact hsub x hx
  · rw [List.toFinset_card_of_nodup (List.nodup_range n),
      List.toFinset_card_of_nodup hnd, hlen, List.length_range]

/-- The positions reached from some `i < n`, reflected back: the reflection
`i ↦ (j + n - 1 - i) % n` is an involution on `[0, n)`. -/
theorem sigma_invol (n j : ℕ) (hj : j < n) (i : ℕ) (hi : i < n) :
    (j + n - 1 - (j + n - 1 - i) % n) % n = i := by
  set x := j + n - 1 - i with hx
  have hq := Nat.div_add_mod x n
  have hle := Nat.mod_le x n
  have h1 : j + n - 1 - x % n = i + n * (x / n) := by omega
  rw [h1, Nat.add_mul_mod_self_left, Nat.mod_eq_of_lt hi]

/-- The indicator of `[0, k)` summed over `range n`. -/
theorem sum_ite_range (k : ℕ) :
    ∀ n, ((List.range n).map (fun d => if d < k then 1 else 0)).sum =
      min k n := by
  intro n
  induction n with
  | zero => simp
  | succ n ih =>
    rw [List.range_succ, List.map_append, List.sum_append, ih]
    by_cases h : n < k <;> simp [h] <;> omega

/-- All three balance properties of the ring assignment built from any
duplicate-free reordering of the roster: every evaluator gets `k` papers,
nobody reviews themselves, and every paper is reviewed exactly `k` times. -/
theorem perfectFromOrder_balance (students order : List String) (k : ℕ)
    (hnd : students.Nodup) (hperm : List.Perm order students)
    (hk1 : 1 ≤ k) (hkn : k ≤ students.length - 1) :
    (∀ p ∈ perfectFromOrder students order k false, p.2.length = k) ∧
    (∀ p ∈ perfectFromOrder students order k false, p.1 ∉ p.2) ∧
    (∀ t ∈ students,
      inDegree (perfectFromOrder students order k false) t = k) := by
  have hond : order.Nodup := hperm.nodup_iff.mpr hnd
  have hlen : order.length = students.length := hperm.length_eq
  have hk2 : k + 1 ≤ order.length := by omega
  have hmem : ∀ s ∈ students, s ∈ order := fun s hs => hperm.mem_iff.mpr hs
  have hidx : ∀ s ∈ students, order.indexOf s < order.length := fun s hs =>
    List.indexOf_lt_length.mpr (hmem s hs)
  have hget : ∀ s ∈ students, order.getD (order.indexOf s) "" = s := by
    intro s hs
    have h := List.indexOf_get (hidx s hs)
    rw [List.get_eq_getElem] at h
    rw [List.getD_eq_getElem order "" (hidx s hs)]
    exact h
  refine ⟨?_, ?_, ?_⟩
  · intro p hp
    simp only [perfectFromOrder, List.mem_map] at hp
    obtain ⟨s, hs, rfl⟩ := hp
    show (ringTargets order k false (order.indexOf s)).length = k
    rw [ringTargets_spec order hond _ k (hidx s hs) hk2]
    simp
  · intro p hp
    simp only [perfectFromOrder, List.mem_map] at hp
    obtain ⟨s, hs, rfl⟩ := hp
    show s ∉ ringTargets order k false (order.indexOf s)
    rw [ringTargets_spec order hond _ k (hidx s hs) hk2]
    intro hmem2
    rw [List.mem_map] at hmem2
    obtain ⟨m, hm, he⟩ := hmem2
    rw [List.mem_range] at hm
    refine ring_index_ne order.length (order.indexOf s) (1 + m)
      (hidx s hs) (by omega) (by omega) ?_
    have he2 : order.getD ((order.indexOf s + (1 + m)) % order.length) "" =
        order.getD (order.indexOf s) "" := by
      rw [hget s hs,
        show order.indexOf s + (1 + m) = order.indexOf s + 1 + m by omega]
      exact he
    exact getD_inj_of_nodup order hond
      (Nat.mod_lt _ (by omega)) (hidx s hs) he2
  · intro t ht
    have hj : order.indexOf t < order.length := hidx t ht
    simp only [inDegree, perfectFromOrder]
    have hmap : ((students.map fun s =>
        (s, ringTargets order k false (order.indexOf s))).map
          fun p => p.2.count t) =
        (students.map fun s => order.indexOf s).map
          (fun i => if (order.indexOf t + order.length - 1 - i) %
            order.length < k then 1 else 0) := by
      rw [List.map_map, List.map_map]
      apply List.map_congr_left
      intro s hs
      show (ringTargets order k false (order.indexOf s)).count t =
        if (order.indexOf t + order.length - 1 - order.indexOf s) %
          order.length < k then 1 else 0
      conv_lhs => rw [← hget t ht]
      exact ringTargets_count order hond (order.indexOf s) (order.indexOf t)
        k (hidx s hs) hj hk2
    rw [hmap]
    have hidxnd : (students.map fun s => order.indexOf s).Nodup := by
      refine List.Nodup.map_on ?_ hnd
      intro a ha b hb he
      rw [← hget a ha, ← hget b hb, he]
    have hpermidx : List.Perm (students.map fun s => order.indexOf s)
        (List.range order.length) := by
      apply perm_range_of _ _ hidxnd
      · rw [List.length_map, hlen]
      · intro x hx
        rw [List.mem_map] at hx
        obtain ⟨s, hs, rfl⟩ := hx
        exact hidx s hs
    rw [List.Perm.sum_eq (hpermidx.map
      (fun i => if (order.indexOf t + order.length - 1 - i) %
        order.length < k then 1 else 0))]
    have hσperm : List.Perm ((List.range order.length).map
        (fun i => (order.indexOf t + order.length - 1 - i) % order.length))
        (List.range order.length) := by
      apply perm_range_of
      · refine List.Nodup.map_on ?_ (List.nodup_range order.length)
        intro a ha b hb he
        rw [List.mem_range] at ha hb
        have h1 := sigma_invol order.length (order.indexOf t) hj a ha
        have h2 := sigma_invol order.length (order.indexOf t) hj b hb
        rw [← h1, ← h2, he]
      · rw [List.length_map, List.length_range]
      · intro x hx
        rw [List.mem_map] at hx
        obtain ⟨i, hi, rfl⟩ := hx
        exact Nat.mod_lt _ (by omega)
    have hcomp : (((List.range order.length).map
        (fun i => (order.indexOf t + order.length - 1 - i) %
          order.length)).map (fun d => if d < k then 1 else 0)) =
        (List.range order.length).map
          (fun i => if (order.indexOf t + order.length - 1 - i) %
            order.length < k then 1 else 0) := by
      rw [List.map_map]
      rfl
    rw [← hcomp,
      List.Perm.sum_eq (hσperm.map (fun d => if d < k then 1 else 0)),
      sum_ite_range]
    omega

/-- C6: for every duplicate-free student roster, every `k` with
`1 ≤ k ≤ n - 1` and `allow_self = false`, the perfect-mode assignment (from
any generator state) gives every reviewer exactly `k` assigned papers, never
assigns a student their own paper, and gives every paper exactly `k`
reviewers. -/
theorem C6_perfect_balance (st : MTState) (students : List String) (k : ℕ)
    (hnd : students.Nodup) (hk1 : 1 ≤ k) (hkn : k ≤ students.length - 1) :
    (∀ p ∈ perfectFromState st students k false, p.2.length = k) ∧
    (∀ p ∈ perfectFromState st students k false, p.1 ∉ p.2) ∧
    (∀ t ∈ students,
      inDegree (perfectFromState st students k false) t = k) :=
  perfectFromOrder_balance students (pyShuffle students st).1 k hnd
    (pyShuffle_perm students st) hk1 hkn

/-- Witness for C6 on a concrete roster, `k = 2` and generator state. -/
theorem C6_perfect_balance_witness :
    (["A", "B", "C", "D"] : List String).Nodup ∧ 1 ≤ 2 ∧
    2 ≤ (["A", "B", "C", "D"] : List String).length - 1 ∧
    (∀ t ∈ (["A", "B", "C", "D"] : List String),
      inDegree (perfectFromState ⟨[], 0⟩ ["A", "B", "C", "D"] 2 false) t
        = 2) :=
  ⟨by decide, by decide, by decide,
    (C6_perfect_balance ⟨[], 0⟩ ["A", "B", "C", "D"] 2 (by decide)
      (by decide) (by decide)).2.2⟩

/-- Splitting the `init_genrand` recurrence at any point: the second part
continues from the last word of the first. -/
theorem igGo_add (a b i prev : ℕ) :
    igGo (a + b) i prev =
      igGo a i prev ++ igGo b (i + a) ((igGo a i prev).getLastD prev) := by
  induction a generalizing i prev with
  | zero => simp [igGo]
  | succ a ih =>
    rw [show a + 1 + b = (a + b) + 1 by omega]
    simp only [igGo]
    rw [ih, List.cons_append, List.getLastD_cons,
      show i + 1 + a = i + (a + 1) by omega]

/-- Splitting the first `init_by_array` scan at any point. -/
theorem ibaScan1_append (xs ys : List ℕ) (prev : ℕ) :
    ibaScan1 prev (xs ++ ys) =
      ibaScan1 prev xs ++ ibaScan1 ((ibaScan1 prev xs).getLastD prev) ys := by
  induction xs generalizing prev with
  | nil => simp [ibaScan1]
  | cons x xs ih =>
    rw [List.cons_append]
    simp only [ibaScan1]
    rw [ih, List.cons_append, List.getLastD_cons]

/-- Splitting the second `init_by_array` scan at any point. -/
theorem ibaScan2_append (xs ys : List ℕ) (i prev : ℕ) :
    ibaScan2 i prev (xs ++ ys) =
      ibaScan2 i prev xs ++
        ibaScan2 (i + xs.length) ((ibaScan2 i prev xs).getLastD prev) ys := by
  induction xs generalizing i prev with
  | nil => simp [ibaScan2]
  | cons x xs ih =>
    rw [List.cons_append]
    simp only [ibaScan2, List.length_cons]
    rw [ih, List.cons_append, List.getLastD_cons,
      show i + 1 + xs.length = i + (xs.length + 1) by omega]

/-- Last element of an appended list, default-chained. -/
theorem getLastD_append (xs ys : List ℕ) (d : ℕ) :
    (xs ++ ys).getLastD d = ys.getLastD (xs.getLastD d) := by
  induction xs generalizing d with
  | nil => rfl
  | cons x xs ih => rw [List.cons_append, List.getLastD_cons, ih,
      List.getLastD_cons]

set_option maxRecDepth 4000 in
/-- The `init_genrand(19650218)` array, evaluated chunk by chunk. -/
theorem initGenrand_eq : initGenrand 19650218 = litA := by
  have e1 : igGo 150 1 (mask32 19650218) = litA1 := by decide
  have c1 : litA1.getLastD (mask32 19650218) = 3025229445 := by decide
  have e2 : igGo 150 151 3025229445 = litA2 := by decide
  have c2 : litA2.getLastD 3025229445 = 667742236 := by decide
  have e3 : igGo 150 301 667742236 = litA3 := by decide
  have c3 : litA3.getLastD 667742236 = 1337937966 := by decide
  have e4 : igGo 150 451 1337937966 = litA4 := by decide
  have c4 : litA4.getLastD 1337937966 = 4184957279 := by decide
  have e5 : igGo 23 601 4184957279 = litA5 := by decide
  show mask32 19650218 :: igGo 623 1 (mask32 19650218) = litA
  rw [show (623 : ℕ) = 150 + 473 from rfl,
    igGo_add 150 473 1 (mask32 19650218), e1, c1,
    show (1 : ℕ) + 150 = 151 from rfl,
    show (473 : ℕ) = 150 + 323 from rfl,
    igGo_add 150 323 151 3025229445, e2, c2,
    show (151 : ℕ) + 150 = 301 from rfl,
    show (323 : ℕ) = 150 + 173 from rfl,
    igGo_add 150 173 301 667742236, e3, c3,
    show (301 : ℕ) + 150 = 451 from rfl,
    show (173 : ℕ) = 150 + 23 from rfl,
    igGo_add 150 23 451 1337937966, e4, c4,
    show (451 : ℕ) + 150 = 601 from rfl, e5]
  show (19650218 : ℕ) :: _ = litA
  rfl

set_option maxRecDepth 4000 in
/-- The first `init_by_array` scan over the `init_genrand` words, evaluated
chunk by chunk. -/
theorem ibaScan1_eq : ibaScan1 19650218
    (litA1 ++ (litA2 ++ (litA3 ++ (litA4 ++ litA5)))) = litY := by
  have f1 : ibaScan1 19650218 litA1 = litY1 := by decide
  have d1 : litY1.getLastD 19650218 = 3991654486 := by decide
  have f2 : ibaScan1 3991654486 litA2 = litY2 := by decide
  have d2 : litY2.getLastD 3991654486 = 4013558383 := by decide
  have f3 : ibaScan1 4013558383 litA3 = litY3 := by decide
  have d3 : litY3.getLastD 4013558383 = 3846446333 := by decide
  have f4 : ibaScan1 3846446333 litA4 = litY4 := by decide
  have d4 : litY4.getLastD 3846446333 = 2192444444 := by decide
  have f5 : ibaScan1 2192444444 litA5 = litY5 := by decide
  rw [ibaScan1_append, f1, d1,
    ibaScan1_append, f2, d2,
    ibaScan1_append, f3, d3,
    ibaScan1_append, f4, d4, f5]
  rfl

set_option maxRecDepth 4000 in
/-- The second `init_by_array` scan, evaluated chunk by chunk. -/
theorem ibaScan2_eq : ibaScan2 2 1535389364
    (litY1.tail ++ (litY2 ++ (litY3 ++ (litY4 ++ litY5)))) = litZ := by
  have g1 : ibaScan2 2 1535389364 litY1.tail = litZ1 := by decide
  have l1 : (litY1.tail).length = 149 := by decide
  have h1 : litZ1.getLastD 1535389364 = 4177392955 := by decide
  have g2 : ibaScan2 151 4177392955 litY2 = litZ2 := by decide
  have l2 : litY2.length = 150 := by decide
  have h2 : litZ2.getLastD 4177392955 = 3512733409 := by decide
  have g3 : ibaScan2 301 3512733409 litY3 = litZ3 := by decide
  have l3 : litY3.length = 150 := by decide
  have h3 : litZ3.getLastD 3512733409 = 1532058170 := by decide
  have g4 : ibaScan2 451 1532058170 litY4 = litZ4 := by decide
  have l4 : litY4.length = 150 := by decide
  have h4 : litZ4.getLastD 1532058170 = 3522360389 := by decide
  have g5 : ibaScan2 601 3522360389 litY5 = litZ5 := by decide
  rw [ibaScan2_append, g1, l1, h1,
    show (2 : ℕ) + 149 = 151 from rfl,
    ibaScan2_append, g2, l2, h2,
    show (151 : ℕ) + 150 = 301 from rfl,
    ibaScan2_append, g3, l3, h3,
    show (301 : ℕ) + 150 = 451 from rfl,
    ibaScan2_append, g4, l4, h4,
    show (451 : ℕ) + 150 = 601 from rfl, g5]
  rfl

set_option maxRecDepth 4000 in
/-- The seed-0 state array equals its literal. -/
theorem seededMt0_eq : seededMt0 = litMT := by
  have htail : litA.tail = litA1 ++ (litA2 ++ (litA3 ++ (litA4 ++ litA5))) :=
    rfl
  have hyl : litY.getLastD 0 = 3723017946 := by
    show (litY1 ++ (litY2 ++ (litY3 ++ (litY4 ++ litY5)))).getLastD 0 =
      3723017946
    rw [getLastD_append, getLastD_append, getLastD_append, getLastD_append]
    decide
  have hyh : litY.headD 0 = 4287170993 := by decide
  have hn1 : ibaStep1 4287170993 3723017946 = 1535389364 := by decide
  have hyt : litY.tail =
      litY1.tail ++ (litY2 ++ (litY3 ++ (litY4 ++ litY5))) := rfl
  have hzl : litZ.getLastD 0 = 2902720905 := by
    show (litZ1 ++ (litZ2 ++ (litZ3 ++ (litZ4 ++ litZ5)))).getLastD 0 =
      2902720905
    rw [getLastD_append, getLastD_append, getLastD_append, getLastD_append]
    decide
  have hm1 : ibaStep2 1535389364 2902720905 1 = 766982754 := by decide
  show (let m := initGenrand 19650218
    let ys := ibaScan1 (m.headD 0) m.tail
    let n623 := ys.getLastD 0
    let n1 := ibaStep1 (ys.headD 0) n623
    let zs := ibaScan2 2 n1 ys.tail
    let m623 := zs.getLastD 0
    let m1 := ibaStep2 n1 m623 1
    2147483648 :: m1 :: zs) = litMT
  rw [initGenrand_eq]
  show 2147483648 :: ibaStep2
      (ibaStep1 ((ibaScan1 (litA.headD 0) litA.tail).headD 0)
        ((ibaScan1 (litA.headD 0) litA.tail).getLastD 0))
      ((ibaScan2 2
        (ibaStep1 ((ibaScan1 (litA.headD 0) litA.tail).headD 0)
          ((ibaScan1 (litA.headD 0) litA.tail).getLastD 0))
        (ibaScan1 (litA.headD 0) litA.tail).tail).getLastD 0) 1 ::
      ibaScan2 2
        (ibaStep1 ((ibaScan1 (litA.headD 0) litA.tail).headD 0)
          ((ibaScan1 (litA.headD 0) litA.tail).getLastD 0))
        (ibaScan1 (litA.headD 0) litA.tail).tail = litMT
  rw [show litA.headD 0 = 19650218 from rfl, htail, ibaScan1_eq, hyl, hyh,
    hn1, hyt, ibaScan2_eq, hzl, hm1]
  rfl

/-- The generator state after `random.seed(0)`, as a literal. -/
theorem pythonSeed0_eq : pythonSeed0 = ⟨litMT, 624⟩ := by
  show MTState.mk seededMt0 624 = MTState.mk litMT 624
  rw [seededMt0_eq]

set_option maxRecDepth 10000 in
/-- `random.seed(0); random.shuffle(["A","B","C","D","E"])` produces
`["C","B","A","E","D"]`: the shuffle is applied and it does move elements. -/
theorem shuffle_seed0 :
    (pyShuffle ["A", "B", "C", "D", "E"] pythonSeed0).1 =
      ["C", "B", "A", "E", "D"] := by
  rw [pythonSeed0_eq]
  decide

/-- The full seed-0 perfect assignment for the roster `[A,B,C,D,E]`, `k = 2`,
computed through the ring characterization of the shuffled order. -/
theorem perfectSeed0_eq :
    perfectFromState pythonSeed0 ["A", "B", "C", "D", "E"] 2 false =
      [("A", ["E", "D"]), ("B", ["A", "E"]), ("C", ["B", "A"]),
        ("D", ["C", "B"]), ("E", ["D", "C"])] := by
  have hs : ∀ i : ℕ, i < 5 →
      ringTargets ["C", "B", "A", "E", "D"] 2 false i =
        (List.range 2).map
          (fun m => (["C", "B", "A", "E", "D"] : List String).getD
            ((i + 1 + m) % 5) "") := by
    intro i hi
    exact ringTargets_spec ["C", "B", "A", "E", "D"] (by decide) i 2
      (by simpa using hi) (by decide)
  have h0 := hs 0 (by omega)
  have h1 := hs 1 (by omega)
  have h2 := hs 2 (by omega)
  have h3 := hs 3 (by omega)
  have h4 := hs 4 (by omega)
  show perfectFromOrder ["A", "B", "C", "D", "E"]
    (pyShuffle ["A", "B", "C", "D", "E"] pythonSeed0).1 2 false = _
  rw [shuffle_seed0]
  simp only [perfectFromOrder, List.map_cons, List.map_nil]
  rw [show List.indexOf "A" (["C", "B", "A", "E", "D"] : List String) = 2
      from by decide,
    show List.indexOf "B" (["C", "B", "A", "E", "D"] : List String) = 1
      from by decide,
    show List.indexOf "C" (["C", "B", "A", "E", "D"] : List String) = 0
      from by decide,
    show List.indexOf "D" (["C", "B", "A", "E", "D"] : List String) = 4
      from by decide,
    show List.indexOf "E" (["C", "B", "A", "E", "D"] : List String) = 3
      from by decide,
    h0, h1, h2, h3, h4]
  decide

/-- Claim C7 fails as stated: with seed 0 the shuffle is applied (the order
becomes `[C,B,A,E,D]`), so the produced assignment is not the claimed
`A→[B,C], B→[C,D], C→[D,E], D→[E,A], E→[A,B]`. -/
theorem C7_assignment_counterexample :
    perfectFromState pythonSeed0 ["A", "B", "C", "D", "E"] 2 false ≠
      [("A", ["B", "C"]), ("B", ["C", "D"]), ("C", ["D", "E"]),
        ("D", ["E", "A"]), ("E", ["A", "B"])] := by
  rw [perfectSeed0_eq]
  decide

/-- Claim C7, amended: with seed 0 the roster is shuffled to
`[C,B,A,E,D]` and the produced assignment is `A→[E,D], B→[A,E], C→[B,A],
D→[C,B], E→[D,C]`, with every target in-degree `2`. -/
theorem C7_assignment_amended :
    (pyShuffle ["A", "B", "C", "D", "E"] pythonSeed0).1 =
      ["C", "B", "A", "E", "D"] ∧
    perfectFromState pythonSeed0 ["A", "B", "C", "D", "E"] 2 false =
      [("A", ["E", "D"]), ("B", ["A", "E"]), ("C", ["B", "A"]),
        ("D", ["C", "B"]), ("E", ["D", "C"])] ∧
    ∀ t ∈ (["A", "B", "C", "D", "E"] : List String),
      inDegree (perfectFromState pythonSeed0 ["A", "B", "C", "D", "E"] 2
        false) t = 2 := by
  refine ⟨shuffle_seed0, perfectSeed0_eq, ?_⟩
  rw [perfectSeed0_eq]
  decide

end PeerEval
